import Mathlib

/-!
# Request dispatch of the RPC layer (`torch/csrc/distributed/rpc/functions.cpp`)

A shallow embedding of `createException` and `processRequestBlocking`.

* C++ exceptions, blocking calls and normal returns are the three constructors of
  `Outcome`; a computation is a function from the process state to an outcome and the
  state it leaves behind (`Exec`), so effects performed before a `throw` persist.
* The process state (`World`) is the `RRefContext` singleton together with the list of
  collaborator calls performed so far.
* Collaborators that are not part of `functions.cpp` (wire decoders, the operator and
  Python execution engines, the `RRefContext` methods) are parameters (`Env`,
  `RRefContext`); the owner table described by the specification is given as one
  concrete instance (`specContext`).
-/

namespace torch.distributed.rpc

/-! ## Identifiers and messages -/

/-- Modelled from the spec: the id type behind `RRefId` and `ForkId` (`types.h` is not
part of the sources): a worker id, which the dispatcher reads as `createdOn_`, and a local
counter. Two ids are compared field by field (`forkId != rrefId`). -/
structure RRefId where
  createdOn_ : Nat
  localId_ : Nat
deriving DecidableEq, Repr

/-- Id of one fork instance of an RRef. -/
abbrev ForkId := RRefId

/-- Modelled from the spec: the message type enumeration (`message.h` is not part of the
sources). The twelve tags named in `functions.cpp`, the two response tags `SCRIPT_RET`
and `RREF_VALUE` (type of a fetch result), the tag `UNKNOWN` of a default constructed
message, and `other n` for every further tag value. -/
inductive MessageType where
  | SCRIPT_CALL
  | SCRIPT_RET
  | PYTHON_CALL
  | PYTHON_RET
  | REMOTE_CALL
  | PYTHON_REMOTE_CALL
  | RREF_FETCH
  | PYTHON_RREF_FETCH
  | RREF_VALUE
  | RREF_USER_ACCEPT
  | RREF_USER_DELETE
  | RREF_FORK_NOTIFY
  | RREF_FORK_ACCEPT
  | EXCEPTION
  | UNKNOWN
  | other (tag : Nat)
deriving DecidableEq, Repr

/-- The ten request tags that `processRequestBlocking` has a `case` for. -/
def MessageType.handled : MessageType → Bool
  | .SCRIPT_CALL | .PYTHON_CALL | .REMOTE_CALL | .PYTHON_REMOTE_CALL
  | .RREF_FETCH | .PYTHON_RREF_FETCH | .RREF_USER_ACCEPT | .RREF_USER_DELETE
  | .RREF_FORK_NOTIFY | .RREF_FORK_ACCEPT => true
  | _ => false

/-- The envelope `Message(payload, tensors, type, id)`; characters are numbers. -/
structure Message (Tensor : Type) where
  payload_ : List Nat
  tensors_ : List Tensor
  type_ : MessageType
  id_ : Int
deriving DecidableEq, Repr

namespace Message

variable {Tensor : Type}

/-- Accessor `type()`. -/
def type (m : Message Tensor) : MessageType := m.type_

/-- Accessor `id()`. -/
def id (m : Message Tensor) : Int := m.id_

/-- Accessor `payload()`. -/
def payload (m : Message Tensor) : List Nat := m.payload_

/-- Accessor `tensors()`. -/
def tensors (m : Message Tensor) : List Tensor := m.tensors_

/-- Mutator `setId`. -/
def setId (m : Message Tensor) (id : Int) : Message Tensor := { m with id_ := id }

/-- Modelled from the spec: the default constructed `Message()` returned as the empty
acknowledgment (`message.h` is not part of the sources): no payload, no tensors, tag
`UNKNOWN`, id `-1`. -/
def empty : Message Tensor := ⟨[], [], MessageType.UNKNOWN, -1⟩

end Message

/-! ## Exceptions and outcomes -/

/-- An exception object derived from `std::exception`, given by the character buffer
that `what()` points to. -/
structure StdException where
  what : List Nat
deriving DecidableEq, Repr

/-- C `strlen`: number of characters before the first NUL. -/
def strlen (s : List Nat) : Nat := (s.takeWhile (fun c => c != 0)).length

/-- The failure text of an exception: the C string `what()` points to. -/
def StdException.text (e : StdException) : List Nat := e.what.takeWhile (fun c => c != 0)

/-- How a call ends: it returns a value, throws, or suspends without ever returning. -/
inductive Outcome (α : Type) where
  | returned (a : α)
  | threw (e : StdException)
  | blocked
deriving DecidableEq, Repr

/-- A computation over a state `σ`: the outcome and the state left behind. -/
def Exec (σ α : Type) : Type := σ → Outcome α × σ

namespace Exec

variable {σ α β : Type}

/-- Normal return. -/
def ret (a : α) : Exec σ α := fun s => (Outcome.returned a, s)

/-- Sequencing: a throw or a suspension of the first part skips the rest. -/
def andThen (m : Exec σ α) (f : α → Exec σ β) : Exec σ β := fun s =>
  match m s with
  | (Outcome.returned a, s1) => f a s1
  | (Outcome.threw e, s1) => (Outcome.threw e, s1)
  | (Outcome.blocked, s1) => (Outcome.blocked, s1)

/-- The statement `throw e`. -/
def raise (e : StdException) : Exec σ α := fun s => (Outcome.threw e, s)

/-- The block `try { body } catch (std::exception& e) { handler e }`. -/
def tryCatch (body : Exec σ α) (handler : StdException → Exec σ α) : Exec σ α := fun s =>
  match body s with
  | (Outcome.threw e, s1) => handler e s1
  | r => r

/-- A collaborator that either returns or throws and has no effect on the state. -/
def ofExcept (r : Except StdException α) : Exec σ α :=
  match r with
  | Except.ok a => ret a
  | Except.error e => raise e

instance : Monad (Exec σ) where
  pure := ret
  bind := andThen

end Exec

/-! ## Collaborators -/

/-- The callable of an operator: it consumes the stack and leaves its results on it, or
throws. -/
abbrev Operation (IValue : Type) : Type := List IValue → Except StdException (List IValue)

/-- An operator, as far as the dispatcher uses it: `getOperation()`. -/
structure Operator (IValue : Type) where
  getOperation : Operation IValue

/-- A decoded `ScriptCall`: `op()` and `stack()`. -/
structure ScriptCall (IValue : Type) where
  op : Operator IValue
  stack : List IValue

/-- A decoded `ScriptRemoteCall`: a `ScriptCall` with `retRRefId()` and `retForkId()`. -/
structure ScriptRemoteCall (IValue : Type) where
  op : Operator IValue
  stack : List IValue
  retRRefId : IValue
  retForkId : IValue

/-- A decoded `PythonRemoteCall`: `udf()`, `retRRefId()` and `retForkId()`. -/
structure PythonRemoteCall (IValue : Type) where
  udf : List Nat
  retRRefId : IValue
  retForkId : IValue

/-- A decoded control message carrying one value: `ScriptRRefFetch`, `PythonRRefFetch`,
`ScriptUserAccept`, `ScriptUserDelete`, `ScriptForkAccept`. -/
structure RRefMessageBase (IValue : Type) where
  value : IValue

/-- A decoded `ScriptForkNotify`: `value()` and `forkDst()`. -/
structure ScriptForkNotify (IValue : Type) where
  value : IValue
  forkDst : Nat

/-- The collaborators of the dispatcher outside the registry. A decoder or an execution
either returns or throws; none of them touches the registry. -/
structure Env (IValue PyObject Tensor : Type) where
  ScriptCall_fromMessage : Message Tensor → Except StdException (ScriptCall IValue)
  ScriptRemoteCall_fromMessage :
    Message Tensor → Except StdException (ScriptRemoteCall IValue)
  PythonRemoteCall_fromMessage :
    Message Tensor → Except StdException (PythonRemoteCall IValue)
  ScriptRRefFetch_fromMessage : Message Tensor → Except StdException (RRefMessageBase IValue)
  PythonRRefFetch_fromMessage : Message Tensor → Except StdException (RRefMessageBase IValue)
  ScriptUserAccept_fromMessage :
    Message Tensor → Except StdException (RRefMessageBase IValue)
  ScriptUserDelete_fromMessage :
    Message Tensor → Except StdException (RRefMessageBase IValue)
  ScriptForkNotify_fromMessage :
    Message Tensor → Except StdException (ScriptForkNotify IValue)
  ScriptForkAccept_fromMessage :
    Message Tensor → Except StdException (RRefMessageBase IValue)
  /-- Decoder `RRefId::fromIValue`. -/
  RRefId_fromIValue : IValue → Except StdException RRefId
  /-- Decoder `ForkId::fromIValue`. -/
  ForkId_fromIValue : IValue → Except StdException ForkId
  /-- Collaborator `PythonRpcHandler::generatePythonUDFResult`. -/
  generatePythonUDFResult : List Nat → Except StdException (List Nat)
  /-- Collaborator `PythonRpcHandler::runPythonUDF`. -/
  runPythonUDF : List Nat → Except StdException PyObject
  /-- Collaborator `PythonRpcHandler::serialize`. -/
  serialize : PyObject → Except StdException IValue
  /-- Wire encoding of a value into payload characters and tensors, used by the
  `toMessage` of `ScriptRet` and `ScriptRRefValue`. -/
  pickle : IValue → List Nat × List Tensor
  /-- The error thrown by the failing `AT_ASSERT(stack.size() == 1, ..., stack.size())`. -/
  assertFailure : Nat → StdException
  /-- The error thrown by `AT_ERROR("Request type ", type, " not supported.")`. -/
  unsupportedType : MessageType → StdException

/-- Template argument of `OwnerRRef<T>`: `IValue` or `py::object`. -/
inductive RRefType where
  | IValue
  | py_object
deriving DecidableEq, Repr

/-- A `std::shared_ptr<OwnerRRef<T>>`, identified by the id of the entry it points to. -/
abbrev OwnerRRefPtr := RRefId

/-- The methods of `RRefContext` and `OwnerRRef` that the dispatcher calls, over the state
`Ctx` of the singleton (`rref_context.h` and `rref.h` are not part of the sources). Every
method but `getOrCreateOwnerRRef` may return, throw or suspend. -/
structure RRefContext (Ctx IValue PyObject : Type) where
  /-- Modelled from the spec: `getOrCreateOwnerRRef<T>(rrefId)` has no failure mode, it
  returns the existing or the new owner of `rrefId`; only its effect on the state is a
  parameter. -/
  getOrCreateOwnerRRef : RRefType → RRefId → Ctx → Ctx
  acceptUserRRef : RRefId → ForkId → Nat → Ctx → Outcome Unit × Ctx
  finishUserRRef : IValue → Ctx → Outcome Unit × Ctx
  delForkOfOwner : IValue → Ctx → Outcome Unit × Ctx
  acceptForkRequest : IValue → Nat → Ctx → Outcome Unit × Ctx
  finishForkRequest : IValue → Ctx → Outcome Unit × Ctx
  /-- Method `OwnerRRef<IValue>::setValue`. -/
  setValue : OwnerRRefPtr → IValue → Ctx → Outcome Unit × Ctx
  /-- Method `OwnerRRef<py::object>::setValue`. -/
  setValuePy : OwnerRRefPtr → PyObject → Ctx → Outcome Unit × Ctx
  /-- Method `OwnerRRef<IValue>::getValue`. -/
  getValue : OwnerRRefPtr → Ctx → Outcome IValue × Ctx
  /-- Method `OwnerRRef<py::object>::getValue`. -/
  getValuePy : OwnerRRefPtr → Ctx → Outcome PyObject × Ctx

/-- One call made by the dispatcher to the registry or to an execution engine. -/
inductive Call (IValue PyObject : Type) where
  | getOrCreateOwnerRRef (T : RRefType) (rrefId : RRefId)
  | acceptUserRRef (rrefId : RRefId) (forkId : ForkId) (origin : Nat)
  | finishUserRRef (value : IValue)
  | delForkOfOwner (value : IValue)
  | acceptForkRequest (value : IValue) (forkDst : Nat)
  | finishForkRequest (value : IValue)
  | setValue (owner : OwnerRRefPtr) (value : IValue)
  | setValuePy (owner : OwnerRRefPtr) (value : PyObject)
  | getValue (owner : OwnerRRefPtr)
  | getValuePy (owner : OwnerRRefPtr)
  | operation (stack : List IValue)
  | generatePythonUDFResult (udf : List Nat)
  | runPythonUDF (udf : List Nat)
deriving DecidableEq, Repr

/-- The call is a registry transition (a method of `RRefContext` or of an `OwnerRRef`). -/
def Call.isRegistry {IValue PyObject : Type} : Call IValue PyObject → Bool
  | .operation _ | .generatePythonUDFResult _ | .runPythonUDF _ => false
  | _ => true

/-- The call executes an operator or a Python function. -/
def Call.isExecution {IValue PyObject : Type} : Call IValue PyObject → Bool
  | .operation _ | .generatePythonUDFResult _ | .runPythonUDF _ => true
  | _ => false

/-- Process state seen by the dispatcher: the registry singleton and the calls made so
far, oldest first. -/
structure World (Ctx IValue PyObject : Type) where
  ctx : Ctx
  calls : List (Call IValue PyObject)
deriving DecidableEq, Repr

section Dispatcher

variable {Ctx IValue PyObject Tensor : Type}

/-- Note a call in the log. -/
def record (c : Call IValue PyObject) : Exec (World Ctx IValue PyObject) Unit :=
  fun w => (Outcome.returned (), { w with calls := w.calls ++ [c] })

/-- Run a registry method on the singleton. -/
def onCtx {α : Type} (f : Ctx → Outcome α × Ctx) : Exec (World Ctx IValue PyObject) α :=
  fun w => ((f w.ctx).1, { w with ctx := (f w.ctx).2 })

/-- Call `op->getOperation()(stack)`; the result is the stack afterwards. -/
def runOperation (op : Operator IValue) (stack : List IValue) :
    Exec (World Ctx IValue PyObject) (List IValue) := do
  record (Call.operation stack)
  Exec.ofExcept (op.getOperation stack)

/-- Call `PythonRpcHandler::generatePythonUDFResult(udf)`. -/
def generatePythonUDFResult (E : Env IValue PyObject Tensor) (udf : List Nat) :
    Exec (World Ctx IValue PyObject) (List Nat) := do
  record (Call.generatePythonUDFResult udf)
  Exec.ofExcept (E.generatePythonUDFResult udf)

/-- Call `PythonRpcHandler::runPythonUDF(udf)`. -/
def runPythonUDF (E : Env IValue PyObject Tensor) (udf : List Nat) :
    Exec (World Ctx IValue PyObject) PyObject := do
  record (Call.runPythonUDF udf)
  Exec.ofExcept (E.runPythonUDF udf)

namespace RRefContext

variable (R : RRefContext Ctx IValue PyObject)

/-- Call `ctx->getOrCreateOwnerRRef<T>(rrefId)`. -/
def callGetOrCreateOwnerRRef (T : RRefType) (rrefId : RRefId) :
    Exec (World Ctx IValue PyObject) OwnerRRefPtr := do
  record (Call.getOrCreateOwnerRRef T rrefId)
  onCtx (fun c => (Outcome.returned rrefId, R.getOrCreateOwnerRRef T rrefId c))

/-- Call `ctx->acceptUserRRef(rrefId, forkId, origin)`. -/
def callAcceptUserRRef (rrefId : RRefId) (forkId : ForkId) (origin : Nat) :
    Exec (World Ctx IValue PyObject) Unit := do
  record (Call.acceptUserRRef rrefId forkId origin)
  onCtx (R.acceptUserRRef rrefId forkId origin)

/-- Call `ctx->finishUserRRef(value)`. -/
def callFinishUserRRef (value : IValue) : Exec (World Ctx IValue PyObject) Unit := do
  record (Call.finishUserRRef value)
  onCtx (R.finishUserRRef value)

/-- Call `ctx->delForkOfOwner(value)`. -/
def callDelForkOfOwner (value : IValue) : Exec (World Ctx IValue PyObject) Unit := do
  record (Call.delForkOfOwner value)
  onCtx (R.delForkOfOwner value)

/-- Call `ctx->acceptForkRequest(value, forkDst)`. -/
def callAcceptForkRequest (value : IValue) (forkDst : Nat) :
    Exec (World Ctx IValue PyObject) Unit := do
  record (Call.acceptForkRequest value forkDst)
  onCtx (R.acceptForkRequest value forkDst)

/-- Call `ctx->finishForkRequest(value)`. -/
def callFinishForkRequest (value : IValue) : Exec (World Ctx IValue PyObject) Unit := do
  record (Call.finishForkRequest value)
  onCtx (R.finishForkRequest value)

/-- Call `ownerRRef->setValue(value)` on an `OwnerRRef<IValue>`. -/
def callSetValue (owner : OwnerRRefPtr) (value : IValue) :
    Exec (World Ctx IValue PyObject) Unit := do
  record (Call.setValue owner value)
  onCtx (R.setValue owner value)

/-- Call `ownerRRef->setValue(value)` on an `OwnerRRef<py::object>`. -/
def callSetValuePy (owner : OwnerRRefPtr) (value : PyObject) :
    Exec (World Ctx IValue PyObject) Unit := do
  record (Call.setValuePy owner value)
  onCtx (R.setValuePy owner value)

/-- Call `rref->getValue()` on an `OwnerRRef<IValue>`. -/
def callGetValue (owner : OwnerRRefPtr) : Exec (World Ctx IValue PyObject) IValue := do
  record (Call.getValue owner)
  onCtx (R.getValue owner)

/-- Call `rref->getValue()` on an `OwnerRRef<py::object>`. -/
def callGetValuePy (owner : OwnerRRefPtr) : Exec (World Ctx IValue PyObject) PyObject := do
  record (Call.getValuePy owner)
  onCtx (R.getValuePy owner)

end RRefContext

/-- Modelled from the spec: `ScriptRet(value).toMessage()` (`script_ret.h` is not part of
the sources): the value on the wire, tagged as the return of a direct call. -/
def ScriptRet.toMessage (E : Env IValue PyObject Tensor) (value : IValue) : Message Tensor :=
  ⟨(E.pickle value).1, (E.pickle value).2, MessageType.SCRIPT_RET, -1⟩

/-- Modelled from the spec: `ScriptRRefValue(value).toMessage()` (`script_rref_proto.h` is
not part of the sources): the value on the wire, tagged as a fetch result. -/
def ScriptRRefValue.toMessage (E : Env IValue PyObject Tensor) (value : IValue) :
    Message Tensor :=
  ⟨(E.pickle value).1, (E.pickle value).2, MessageType.RREF_VALUE, -1⟩

/-! ## The dispatcher -/

/-- Function `createException(request, e)`. -/
def createException (request : Message Tensor) (e : StdException) : Message Tensor :=
  let err := e.what
  let payload := err.take (strlen err)
  ⟨payload, [], MessageType.EXCEPTION, request.id⟩

/-- Function `processRequestBlocking(request)`. -/
def processRequestBlocking (E : Env IValue PyObject Tensor)
    (R : RRefContext Ctx IValue PyObject) (request : Message Tensor) :
    Exec (World Ctx IValue PyObject) (Message Tensor) :=
  match request.type with
  | MessageType.SCRIPT_CALL =>
    Exec.tryCatch
      (do
        let op ← Exec.ofExcept (E.ScriptCall_fromMessage request)
        let stack ← runOperation op.op op.stack
        match stack with
        | [front] => pure ((ScriptRet.toMessage E front).setId request.id)
        | _ => Exec.raise (E.assertFailure stack.length))
      (fun e => pure (createException request e))
  | MessageType.PYTHON_CALL =>
    Exec.tryCatch
      (do
        let pickledPythonUDF := request.payload
        let payload ← generatePythonUDFResult E pickledPythonUDF
        pure ⟨payload, [], MessageType.PYTHON_RET, request.id⟩)
      (fun e => pure (createException request e))
  | MessageType.REMOTE_CALL => do
    let src ← Exec.ofExcept (E.ScriptRemoteCall_fromMessage request)
    let rrefId ← Exec.ofExcept (E.RRefId_fromIValue src.retRRefId)
    let forkId ← Exec.ofExcept (E.ForkId_fromIValue src.retForkId)
    let ownerRRef ← R.callGetOrCreateOwnerRRef RRefType.IValue rrefId
    if forkId != rrefId then
      R.callAcceptUserRRef rrefId forkId rrefId.createdOn_
    let stack ← runOperation src.op src.stack
    match stack with
    | [front] => do
      R.callSetValue ownerRRef front
      pure Message.empty
    | _ => Exec.raise (E.assertFailure stack.length)
  | MessageType.PYTHON_REMOTE_CALL => do
    let prc ← Exec.ofExcept (E.PythonRemoteCall_fromMessage request)
    let rrefId ← Exec.ofExcept (E.RRefId_fromIValue prc.retRRefId)
    let forkId ← Exec.ofExcept (E.ForkId_fromIValue prc.retForkId)
    let ownerRRef ← R.callGetOrCreateOwnerRRef RRefType.py_object rrefId
    if forkId != rrefId then
      R.callAcceptUserRRef rrefId forkId rrefId.createdOn_
    let pickledPythonUDF := prc.udf
    let result ← runPythonUDF E pickledPythonUDF
    R.callSetValuePy ownerRRef result
    pure Message.empty
  | MessageType.RREF_FETCH => do
    let srf ← Exec.ofExcept (E.ScriptRRefFetch_fromMessage request)
    let id ← Exec.ofExcept (E.RRefId_fromIValue srf.value)
    let rref ← R.callGetOrCreateOwnerRRef RRefType.IValue id
    let value ← R.callGetValue rref
    let response := ScriptRRefValue.toMessage E value
    pure (response.setId request.id)
  | MessageType.PYTHON_RREF_FETCH => do
    let srf ← Exec.ofExcept (E.PythonRRefFetch_fromMessage request)
    let id ← Exec.ofExcept (E.RRefId_fromIValue srf.value)
    let rref ← R.callGetOrCreateOwnerRRef RRefType.py_object id
    let value ← R.callGetValuePy rref
    let serialized ← Exec.ofExcept (E.serialize value)
    let response := ScriptRRefValue.toMessage E serialized
    pure (response.setId request.id)
  | MessageType.RREF_USER_ACCEPT => do
    let sua ← Exec.ofExcept (E.ScriptUserAccept_fromMessage request)
    R.callFinishUserRRef sua.value
    pure Message.empty
  | MessageType.RREF_USER_DELETE => do
    let srd ← Exec.ofExcept (E.ScriptUserDelete_fromMessage request)
    R.callDelForkOfOwner srd.value
    pure Message.empty
  | MessageType.RREF_FORK_NOTIFY => do
    let sfn ← Exec.ofExcept (E.ScriptForkNotify_fromMessage request)
    R.callAcceptForkRequest sfn.value sfn.forkDst
    pure Message.empty
  | MessageType.RREF_FORK_ACCEPT => do
    let sfa ← Exec.ofExcept (E.ScriptForkAccept_fromMessage request)
    R.callFinishForkRequest sfa.value
    pure Message.empty
  | _ => Exec.raise (E.unsupportedType request.type)

end Dispatcher

/-- The calls made by one dispatch of `request` from the state `w`, oldest first. -/
def callsOf {Ctx IValue PyObject Tensor : Type} (E : Env IValue PyObject Tensor)
    (R : RRefContext Ctx IValue PyObject) (request : Message Tensor)
    (w : World Ctx IValue PyObject) : List (Call IValue PyObject) :=
  (processRequestBlocking E R request w).2.calls.drop w.calls.length

/-! ## The owner table of the specification -/

/-- Modelled from the spec: the state of the registry on the owner side
(`rref_context.cpp` is not part of the sources). Every owned RRef has a write-once
optional value, kept per value type; `confirmedForks` holds the confirmed forks of every
RRefId; `userAccepts` lists the `USER_ACCEPT` acknowledgments sent so far as (destination
worker, fork). -/
structure SpecCtx (IValue PyObject : Type) where
  owners : List (RRefId × Option IValue)
  pyOwners : List (RRefId × Option PyObject)
  confirmedForks : List (RRefId × ForkId)
  userAccepts : List (Nat × ForkId)
deriving DecidableEq, Repr

/-- Modelled from the spec: the failure `AlreadySet` of a second `setValue`. -/
def alreadySet : StdException := ⟨[65, 108, 114, 101, 97, 100, 121, 83, 101, 116, 0]⟩

/-- Modelled from the spec: the failure `StaleReference` of a reference to an owner that
is not in the table. -/
def staleReference : StdException :=
  ⟨[83, 116, 97, 108, 101, 82, 101, 102, 101, 114, 101, 110, 99, 101, 0]⟩

namespace SpecCtx

variable {IValue PyObject V : Type}

/-- Modelled from the spec: `getOrCreateOwner(id)` on one table: if absent, create an
owner with empty value; otherwise leave the table as it is. -/
def getOrCreate (id : RRefId) (table : List (RRefId × Option V)) : List (RRefId × Option V) :=
  match table.lookup id with
  | some _ => table
  | none => table ++ [(id, none)]

/-- Modelled from the spec: `setValue` on one table: the value is written once; a second
write fails with `AlreadySet` and leaves the value as it was. -/
def setValueIn (id : RRefId) (v : V) (table : List (RRefId × Option V)) :
    Outcome Unit × List (RRefId × Option V) :=
  match table.lookup id with
  | none => (Outcome.threw staleReference, table)
  | some (some _) => (Outcome.threw alreadySet, table)
  | some none =>
    (Outcome.returned (), table.map (fun p => if p.1 = id then (p.1, some v) else p))

/-- Modelled from the spec: `getValue` on one table: returns the written value and
suspends while the value is not set. -/
def getValueIn (id : RRefId) (table : List (RRefId × Option V)) : Outcome V :=
  match table.lookup id with
  | none => Outcome.threw staleReference
  | some none => Outcome.blocked
  | some (some v) => Outcome.returned v

/-- Modelled from the spec: `getOrCreateOwner(id)` for an owner of value type `T`. -/
def getOrCreateOwnerRRef (T : RRefType) (id : RRefId) (c : SpecCtx IValue PyObject) :
    SpecCtx IValue PyObject :=
  match T with
  | RRefType.IValue => { c with owners := getOrCreate id c.owners }
  | RRefType.py_object => { c with pyOwners := getOrCreate id c.pyOwners }

/-- Modelled from the spec: `acceptUserRRef(rrefId, forkId, origin)` puts `forkId` among
the confirmed forks of `rrefId` and, if `forkId` differs from `rrefId`, sends a
`USER_ACCEPT` acknowledgment to `origin`. -/
def acceptUserRRef (rrefId : RRefId) (forkId : ForkId) (origin : Nat)
    (c : SpecCtx IValue PyObject) : Outcome Unit × SpecCtx IValue PyObject :=
  let forks :=
    if (rrefId, forkId) ∈ c.confirmedForks then c.confirmedForks
    else c.confirmedForks ++ [(rrefId, forkId)]
  let sent :=
    if forkId != rrefId then c.userAccepts ++ [(origin, forkId)] else c.userAccepts
  (Outcome.returned (), { c with confirmedForks := forks, userAccepts := sent })

end SpecCtx

/-- The four fork lifecycle transitions of a registry over the state `Ctx`; their
arguments arrive encoded as values. -/
structure ForkLifecycle (Ctx IValue : Type) where
  finishUserRRef : IValue → Ctx → Outcome Unit × Ctx
  delForkOfOwner : IValue → Ctx → Outcome Unit × Ctx
  acceptForkRequest : IValue → Nat → Ctx → Outcome Unit × Ctx
  finishForkRequest : IValue → Ctx → Outcome Unit × Ctx

/-- Modelled from the spec: the registry over the owner table `SpecCtx`; owner creation,
fork acceptance of a user, `setValue` and `getValue` follow the specification, the fork
lifecycle transitions are those of `F`. -/
def specContext {IValue PyObject : Type} (F : ForkLifecycle (SpecCtx IValue PyObject) IValue) :
    RRefContext (SpecCtx IValue PyObject) IValue PyObject where
  getOrCreateOwnerRRef := SpecCtx.getOrCreateOwnerRRef
  acceptUserRRef := SpecCtx.acceptUserRRef
  finishUserRRef := F.finishUserRRef
  delForkOfOwner := F.delForkOfOwner
  acceptForkRequest := F.acceptForkRequest
  finishForkRequest := F.finishForkRequest
  setValue := fun id v c =>
    ((SpecCtx.setValueIn id v c.owners).1, { c with owners := (SpecCtx.setValueIn id v c.owners).2 })
  setValuePy := fun id v c =>
    ((SpecCtx.setValueIn id v c.pyOwners).1,
      { c with pyOwners := (SpecCtx.setValueIn id v c.pyOwners).2 })
  getValue := fun id c => (SpecCtx.getValueIn id c.owners, c)
  getValuePy := fun id c => (SpecCtx.getValueIn id c.pyOwners, c)

/-! ## A concrete set of collaborators -/

namespace Example

/-- Values of the example: integers and encoded ids. -/
inductive Value where
  | int (n : Int)
  | id (createdOn localId : Nat)
deriving DecidableEq, Repr

/-- The text `boom`. -/
def boom : StdException := ⟨[98, 111, 111, 109, 0]⟩

/-- The text `bad`. -/
def bad : StdException := ⟨[98, 97, 100, 0]⟩

/-- Operator `add`: the sum of two integers. -/
def add : Operator Value :=
  ⟨fun stack =>
    match stack with
    | [Value.int a, Value.int b] => Except.ok [Value.int (a + b)]
    | _ => Except.error bad⟩

/-- An operator that always throws `boom`. -/
def failing : Operator Value := ⟨fun _ => Except.error boom⟩

/-- An operator that leaves its inputs on the stack. -/
def keep : Operator Value := ⟨fun stack => Except.ok stack⟩

/-- Operators by number: 0 is `add`, 1 is `failing`, every other is `keep`. -/
def operatorOf : Nat → Operator Value
  | 0 => add
  | 1 => failing
  | _ => keep

/-- Wire form of a call descriptor: the operator number, then the integer arguments. -/
def decodeCall : List Nat → Except StdException (ScriptCall Value)
  | [] => Except.error bad
  | o :: args => Except.ok ⟨operatorOf o, args.map (fun a => Value.int a)⟩

/-- Wire form of a remote call: the RRefId, the ForkId, then the call descriptor. -/
def decodeRemoteCall : List Nat → Except StdException (ScriptRemoteCall Value)
  | w :: l :: fw :: fl :: o :: args =>
    Except.ok ⟨operatorOf o, args.map (fun a => Value.int a), Value.id w l, Value.id fw fl⟩
  | _ => Except.error bad

/-- Wire form of a Python remote call: the RRefId, the ForkId, then the function. -/
def decodePythonRemoteCall : List Nat → Except StdException (PythonRemoteCall Value)
  | w :: l :: fw :: fl :: udf => Except.ok ⟨udf, Value.id w l, Value.id fw fl⟩
  | _ => Except.error bad

/-- Wire form of a control message: one id. -/
def decodeId : List Nat → Except StdException (RRefMessageBase Value)
  | [w, l] => Except.ok ⟨Value.id w l⟩
  | _ => Except.error bad

/-- Wire form of a fork notification: one id and the destination worker. -/
def decodeForkNotify : List Nat → Except StdException (ScriptForkNotify Value)
  | [w, l, dst] => Except.ok ⟨Value.id w l, dst⟩
  | _ => Except.error bad

/-- Decoding of an id value. -/
def idOf : Value → Except StdException RRefId
  | Value.id w l => Except.ok ⟨w, l⟩
  | Value.int _ => Except.error bad

/-- A Python function is its list of characters; the empty function throws `boom`,
every other returns the sum of its characters. -/
def runUDF : List Nat → Except StdException Nat
  | [] => Except.error boom
  | udf => Except.ok udf.sum

/-- Number of a message type: position in the enumeration, `n` for `other n`. -/
def tagOf : MessageType → Nat
  | .SCRIPT_CALL => 0
  | .SCRIPT_RET => 1
  | .PYTHON_CALL => 2
  | .PYTHON_RET => 3
  | .REMOTE_CALL => 4
  | .PYTHON_REMOTE_CALL => 5
  | .RREF_FETCH => 6
  | .PYTHON_RREF_FETCH => 7
  | .RREF_VALUE => 8
  | .RREF_USER_ACCEPT => 9
  | .RREF_USER_DELETE => 10
  | .RREF_FORK_NOTIFY => 11
  | .RREF_FORK_ACCEPT => 12
  | .EXCEPTION => 13
  | .UNKNOWN => 14
  | .other n => n

/-- The example collaborators, with natural numbers as Python objects and no tensors. -/
def env : Env Value Nat Unit where
  ScriptCall_fromMessage := fun m => decodeCall m.payload
  ScriptRemoteCall_fromMessage := fun m => decodeRemoteCall m.payload
  PythonRemoteCall_fromMessage := fun m => decodePythonRemoteCall m.payload
  ScriptRRefFetch_fromMessage := fun m => decodeId m.payload
  PythonRRefFetch_fromMessage := fun m => decodeId m.payload
  ScriptUserAccept_fromMessage := fun m => decodeId m.payload
  ScriptUserDelete_fromMessage := fun m => decodeId m.payload
  ScriptForkNotify_fromMessage := fun m => decodeForkNotify m.payload
  ScriptForkAccept_fromMessage := fun m => decodeId m.payload
  RRefId_fromIValue := idOf
  ForkId_fromIValue := idOf
  generatePythonUDFResult := fun udf => (runUDF udf).map (fun n => [n])
  runPythonUDF := runUDF
  serialize := fun n => Except.ok (Value.int n)
  pickle := fun v =>
    match v with
    | Value.int n => ([n.toNat], [])
    | Value.id w l => ([w, l], [])
  assertFailure := fun n => ⟨[97, 114, 105, 116, 121, 32, 48 + n, 0]⟩
  unsupportedType := fun t => ⟨[116, 121, 112, 101, 32, 48 + tagOf t, 0]⟩

/-- Fork lifecycle transitions that leave the owner table as it is. -/
def idle : ForkLifecycle (SpecCtx Value Nat) Value where
  finishUserRRef := fun _ c => (Outcome.returned (), c)
  delForkOfOwner := fun _ c => (Outcome.returned (), c)
  acceptForkRequest := fun _ _ c => (Outcome.returned (), c)
  finishForkRequest := fun _ c => (Outcome.returned (), c)

/-- The registry of the example. -/
def registry : RRefContext (SpecCtx Value Nat) Value Nat := specContext idle

/-- The state of a fresh process: empty owner table, no calls made. -/
def fresh : World (SpecCtx Value Nat) Value Nat := ⟨⟨[], [], [], []⟩, []⟩

end Example

/-! ## Vocabulary of the statements -/

section Vocabulary

variable {Ctx IValue PyObject Tensor : Type}

/-- A direct call (`SCRIPT_CALL`) or an opaque user call (`PYTHON_CALL`) whose decoding or
whose underlying operation throws `e`. -/
def CallRaises (E : Env IValue PyObject Tensor) (request : Message Tensor)
    (e : StdException) : Prop :=
  (request.type = MessageType.SCRIPT_CALL ∧
    (E.ScriptCall_fromMessage request = Except.error e ∨
      ∃ op, E.ScriptCall_fromMessage request = Except.ok op ∧
        op.op.getOperation op.stack = Except.error e)) ∨
  (request.type = MessageType.PYTHON_CALL ∧
    E.generatePythonUDFResult request.payload = Except.error e)

/-- The call is `getOrCreateOwnerRRef`. -/
def Call.isGetOrCreateOwnerRRef : Call IValue PyObject → Bool
  | .getOrCreateOwnerRRef _ _ => true
  | _ => false

/-- The call is the fork registration `acceptUserRRef`. -/
def Call.isAcceptUserRRef : Call IValue PyObject → Bool
  | .acceptUserRRef _ _ _ => true
  | _ => false

/-- The call is a `setValue` on an owner. -/
def Call.isSetValue : Call IValue PyObject → Bool
  | .setValue _ _ | .setValuePy _ _ => true
  | _ => false

/-- A `REMOTE_CALL` request that decodes to `src` carrying the pair `(rrefId, forkId)`. -/
def DecodesRemoteCall (E : Env IValue PyObject Tensor) (request : Message Tensor)
    (src : ScriptRemoteCall IValue) (rrefId : RRefId) (forkId : ForkId) : Prop :=
  request.type = MessageType.REMOTE_CALL ∧
  E.ScriptRemoteCall_fromMessage request = Except.ok src ∧
  E.RRefId_fromIValue src.retRRefId = Except.ok rrefId ∧
  E.ForkId_fromIValue src.retForkId = Except.ok forkId

/-- A `PYTHON_REMOTE_CALL` request that decodes to `prc` carrying the pair
`(rrefId, forkId)`. -/
def DecodesPythonRemoteCall (E : Env IValue PyObject Tensor) (request : Message Tensor)
    (prc : PythonRemoteCall IValue) (rrefId : RRefId) (forkId : ForkId) : Prop :=
  request.type = MessageType.PYTHON_REMOTE_CALL ∧
  E.PythonRemoteCall_fromMessage request = Except.ok prc ∧
  E.RRefId_fromIValue prc.retRRefId = Except.ok rrefId ∧
  E.ForkId_fromIValue prc.retForkId = Except.ok forkId

/-- A remote-create request (`REMOTE_CALL` for an owner of type `IValue`,
`PYTHON_REMOTE_CALL` for an owner of type `py::object`) carrying `(rrefId, forkId)`. -/
def RemoteCreate (E : Env IValue PyObject Tensor) (request : Message Tensor)
    (T : RRefType) (rrefId : RRefId) (forkId : ForkId) : Prop :=
  (T = RRefType.IValue ∧ ∃ src, DecodesRemoteCall E request src rrefId forkId) ∨
  (T = RRefType.py_object ∧ ∃ prc, DecodesPythonRemoteCall E request prc rrefId forkId)

/-- A remote-create request carrying `(rrefId, forkId)` whose operation throws or, for
`REMOTE_CALL`, leaves a stack of size other than one. -/
def RemoteCreateFails (E : Env IValue PyObject Tensor) (request : Message Tensor)
    (T : RRefType) (rrefId : RRefId) (forkId : ForkId) : Prop :=
  (T = RRefType.IValue ∧ ∃ src, DecodesRemoteCall E request src rrefId forkId ∧
    ((∃ e, src.op.getOperation src.stack = Except.error e) ∨
      ∃ stack, src.op.getOperation src.stack = Except.ok stack ∧ stack.length ≠ 1)) ∨
  (T = RRefType.py_object ∧ ∃ prc, DecodesPythonRemoteCall E request prc rrefId forkId ∧
    ∃ e, E.runPythonUDF prc.udf = Except.error e)

/-- A fork lifecycle control request that decodes, with the registry call and the
registry transition that its tag stands for. -/
def ForkControl (E : Env IValue PyObject Tensor) (R : RRefContext Ctx IValue PyObject)
    (request : Message Tensor) (call : Call IValue PyObject)
    (transition : Ctx → Outcome Unit × Ctx) : Prop :=
  (request.type = MessageType.RREF_USER_ACCEPT ∧
    ∃ sua, E.ScriptUserAccept_fromMessage request = Except.ok sua ∧
      call = Call.finishUserRRef sua.value ∧ transition = R.finishUserRRef sua.value) ∨
  (request.type = MessageType.RREF_USER_DELETE ∧
    ∃ srd, E.ScriptUserDelete_fromMessage request = Except.ok srd ∧
      call = Call.delForkOfOwner srd.value ∧ transition = R.delForkOfOwner srd.value) ∨
  (request.type = MessageType.RREF_FORK_NOTIFY ∧
    ∃ sfn, E.ScriptForkNotify_fromMessage request = Except.ok sfn ∧
      call = Call.acceptForkRequest sfn.value sfn.forkDst ∧
      transition = R.acceptForkRequest sfn.value sfn.forkDst) ∨
  (request.type = MessageType.RREF_FORK_ACCEPT ∧
    ∃ sfa, E.ScriptForkAccept_fromMessage request = Except.ok sfa ∧
      call = Call.finishForkRequest sfa.value ∧ transition = R.finishForkRequest sfa.value)

/-- State of the owner entry of `id` in the table of value type `T`: `none` if there is
no entry, `some false` if the entry has no value yet, `some true` if the value is set. -/
def SpecCtx.ownerState (T : RRefType) (id : RRefId) (c : SpecCtx IValue PyObject) :
    Option Bool :=
  match T with
  | RRefType.IValue => (c.owners.lookup id).map Option.isSome
  | RRefType.py_object => (c.pyOwners.lookup id).map Option.isSome

end Vocabulary

/-! ## Evaluation lemmas -/

section Lemmas

variable {σ α β : Type}

@[simp] theorem Exec.run_pure (a : α) (s : σ) :
    (pure a : Exec σ α) s = (Outcome.returned a, s) := rfl

@[simp] theorem Exec.run_raise (e : StdException) (s : σ) :
    (Exec.raise e : Exec σ α) s = (Outcome.threw e, s) := rfl

@[simp] theorem Exec.run_bind (m : Exec σ α) (f : α → Exec σ β) (s : σ) :
    (m >>= f) s = Exec.andThen m f s := rfl

@[simp] theorem Exec.run_ofExcept_ok (a : α) (s : σ) :
    (Exec.ofExcept (Except.ok a) : Exec σ α) s = (Outcome.returned a, s) := rfl

@[simp] theorem Exec.run_ofExcept_error (e : StdException) (s : σ) :
    (Exec.ofExcept (Except.error e) : Exec σ α) s = (Outcome.threw e, s) := rfl

@[simp] theorem Exec.run_andThen (m : Exec σ α) (f : α → Exec σ β) (s : σ) :
    Exec.andThen m f s =
      match m s with
      | (Outcome.returned a, s1) => f a s1
      | (Outcome.threw e, s1) => (Outcome.threw e, s1)
      | (Outcome.blocked, s1) => (Outcome.blocked, s1) := rfl

@[simp] theorem Exec.run_tryCatch (body : Exec σ α) (handler : StdException → Exec σ α)
    (s : σ) :
    Exec.tryCatch body handler s =
      match body s with
      | (Outcome.threw e, s1) => handler e s1
      | r => r := rfl

@[simp] theorem run_record {Ctx IValue PyObject : Type} (c : Call IValue PyObject)
    (w : World Ctx IValue PyObject) :
    record c w = (Outcome.returned (), ⟨w.ctx, w.calls ++ [c]⟩) := rfl

@[simp] theorem run_onCtx {Ctx IValue PyObject : Type} (f : Ctx → Outcome α × Ctx)
    (w : World Ctx IValue PyObject) :
    (onCtx f : Exec (World Ctx IValue PyObject) α) w = ((f w.ctx).1, ⟨(f w.ctx).2, w.calls⟩) :=
  rfl

@[simp] theorem run_runOperation {Ctx IValue PyObject : Type} (op : Operator IValue)
    (stack : List IValue) (w : World Ctx IValue PyObject) :
    runOperation op stack w =
      Exec.ofExcept (op.getOperation stack) ⟨w.ctx, w.calls ++ [Call.operation stack]⟩ := rfl

@[simp] theorem run_generatePythonUDFResult {Ctx IValue PyObject Tensor : Type}
    (E : Env IValue PyObject Tensor) (udf : List Nat) (w : World Ctx IValue PyObject) :
    generatePythonUDFResult E udf w =
      Exec.ofExcept (E.generatePythonUDFResult udf)
        ⟨w.ctx, w.calls ++ [Call.generatePythonUDFResult udf]⟩ := rfl

@[simp] theorem run_runPythonUDF {Ctx IValue PyObject Tensor : Type}
    (E : Env IValue PyObject Tensor) (udf : List Nat) (w : World Ctx IValue PyObject) :
    runPythonUDF E udf w =
      Exec.ofExcept (E.runPythonUDF udf) ⟨w.ctx, w.calls ++ [Call.runPythonUDF udf]⟩ := rfl

section RegistryCalls

variable {Ctx IValue PyObject : Type} (R : RRefContext Ctx IValue PyObject)
  (w : World Ctx IValue PyObject)

@[simp] theorem run_callGetOrCreateOwnerRRef (T : RRefType) (rrefId : RRefId) :
    R.callGetOrCreateOwnerRRef T rrefId w =
      (Outcome.returned rrefId,
        ⟨R.getOrCreateOwnerRRef T rrefId w.ctx,
          w.calls ++ [Call.getOrCreateOwnerRRef T rrefId]⟩) := rfl

@[simp] theorem run_callAcceptUserRRef (rrefId : RRefId) (forkId : ForkId) (origin : Nat) :
    R.callAcceptUserRRef rrefId forkId origin w =
      ((R.acceptUserRRef rrefId forkId origin w.ctx).1,
        ⟨(R.acceptUserRRef rrefId forkId origin w.ctx).2,
          w.calls ++ [Call.acceptUserRRef rrefId forkId origin]⟩) := rfl

@[simp] theorem run_callFinishUserRRef (value : IValue) :
    R.callFinishUserRRef value w =
      ((R.finishUserRRef value w.ctx).1,
        ⟨(R.finishUserRRef value w.ctx).2, w.calls ++ [Call.finishUserRRef value]⟩) := rfl

@[simp] theorem run_callDelForkOfOwner (value : IValue) :
    R.callDelForkOfOwner value w =
      ((R.delForkOfOwner value w.ctx).1,
        ⟨(R.delForkOfOwner value w.ctx).2, w.calls ++ [Call.delForkOfOwner value]⟩) := rfl

@[simp] theorem run_callAcceptForkRequest (value : IValue) (forkDst : Nat) :
    R.callAcceptForkRequest value forkDst w =
      ((R.acceptForkRequest value forkDst w.ctx).1,
        ⟨(R.acceptForkRequest value forkDst w.ctx).2,
          w.calls ++ [Call.acceptForkRequest value forkDst]⟩) := rfl

@[simp] theorem run_callFinishForkRequest (value : IValue) :
    R.callFinishForkRequest value w =
      ((R.finishForkRequest value w.ctx).1,
        ⟨(R.finishForkRequest value w.ctx).2, w.calls ++ [Call.finishForkRequest value]⟩) :=
  rfl

@[simp] theorem run_callSetValue (owner : OwnerRRefPtr) (value : IValue) :
    R.callSetValue owner value w =
      ((R.setValue owner value w.ctx).1,
        ⟨(R.setValue owner value w.ctx).2, w.calls ++ [Call.setValue owner value]⟩) := rfl

@[simp] theorem run_callSetValuePy (owner : OwnerRRefPtr) (value : PyObject) :
    R.callSetValuePy owner value w =
      ((R.setValuePy owner value w.ctx).1,
        ⟨(R.setValuePy owner value w.ctx).2, w.calls ++ [Call.setValuePy owner value]⟩) := rfl

@[simp] theorem run_callGetValue (owner : OwnerRRefPtr) :
    R.callGetValue owner w =
      ((R.getValue owner w.ctx).1,
        ⟨(R.getValue owner w.ctx).2, w.calls ++ [Call.getValue owner]⟩) := rfl

@[simp] theorem run_callGetValuePy (owner : OwnerRRefPtr) :
    R.callGetValuePy owner w =
      ((R.getValuePy owner w.ctx).1,
        ⟨(R.getValuePy owner w.ctx).2, w.calls ++ [Call.getValuePy owner]⟩) := rfl

end RegistryCalls

theorem take_strlen (s : List Nat) : s.take (strlen s) = s.takeWhile (fun c => c != 0) := by
  unfold strlen
  induction s with
  | nil => rfl
  | cons c cs ih =>
    by_cases h : c = 0
    · simp [List.takeWhile_cons, h]
    · simp [List.takeWhile_cons, h, ih]

theorem createException_eq {Tensor : Type} (request : Message Tensor) (e : StdException) :
    createException request e = ⟨e.text, [], MessageType.EXCEPTION, request.id⟩ := by
  simp [createException, take_strlen, StdException.text]

end Lemmas

/-! ## Direct and opaque calls -/

section DirectCalls

variable {Ctx IValue PyObject Tensor : Type}

/-- C1: a `SCRIPT_CALL` or `PYTHON_CALL` request whose decoding or operation throws `e`
makes `processRequestBlocking` return (not throw, not suspend) a message of type
`EXCEPTION` with the id of the request, the failure text of `e` as payload and no
tensors; the returned message is not of type `SCRIPT_RET`, `PYTHON_RET` or `RREF_VALUE`. -/
theorem C1_call_failure_returns_exception (E : Env IValue PyObject Tensor)
    (R : RRefContext Ctx IValue PyObject) (request : Message Tensor) (e : StdException)
    (w : World Ctx IValue PyObject) (h : CallRaises E request e) :
    ∃ response : Message Tensor,
      (processRequestBlocking E R request w).1 = Outcome.returned response ∧
      response.type = MessageType.EXCEPTION ∧
      response.id = request.id ∧
      response.payload = e.text ∧
      response.tensors = [] ∧
      response.type ≠ MessageType.SCRIPT_RET ∧
      response.type ≠ MessageType.PYTHON_RET ∧
      response.type ≠ MessageType.RREF_VALUE := by
  refine ⟨⟨e.text, [], MessageType.EXCEPTION, request.id⟩, ?_, rfl, rfl, rfl, rfl, ?_, ?_, ?_⟩
  · rcases h with ⟨ht, hd | ⟨op, hd, ho⟩⟩ | ⟨ht, hp⟩
    · simp [processRequestBlocking, ht, hd, Exec.tryCatch, Exec.andThen, createException_eq]
    · simp [processRequestBlocking, ht, hd, ho, Exec.tryCatch, Exec.andThen, runOperation,
        record, createException_eq]
    · simp [processRequestBlocking, ht, hp, Exec.tryCatch, Exec.andThen,
        generatePythonUDFResult, record, createException_eq]
  · simp [Message.type]
  · simp [Message.type]
  · simp [Message.type]

/-- Witness of C1: the example direct call of the operator that throws `boom`. -/
theorem C1_call_failure_returns_exception_witness :
    CallRaises Example.env (⟨[1, 2, 3], [], MessageType.SCRIPT_CALL, 7⟩ : Message Unit)
        Example.boom ∧
      ∃ response : Message Unit,
        (processRequestBlocking Example.env Example.registry
          ⟨[1, 2, 3], [], MessageType.SCRIPT_CALL, 7⟩ Example.fresh).1 =
            Outcome.returned response ∧
        response.type = MessageType.EXCEPTION ∧
        response.id = (⟨[1, 2, 3], [], MessageType.SCRIPT_CALL, 7⟩ : Message Unit).id ∧
        response.payload = Example.boom.text ∧
        response.tensors = [] ∧
        response.type ≠ MessageType.SCRIPT_RET ∧
        response.type ≠ MessageType.PYTHON_RET ∧
        response.type ≠ MessageType.RREF_VALUE :=
  ⟨Or.inl ⟨rfl, Or.inr ⟨_, rfl, rfl⟩⟩,
    C1_call_failure_returns_exception Example.env Example.registry
      ⟨[1, 2, 3], [], MessageType.SCRIPT_CALL, 7⟩ Example.boom Example.fresh
      (Or.inl ⟨rfl, Or.inr ⟨_, rfl, rfl⟩⟩)⟩

/-- C3: a `SCRIPT_CALL` request whose operation leaves a stack of size other than one
makes `processRequestBlocking` return a message of type `EXCEPTION` with the id of the
request, carrying the failure text of the arity assertion; it neither throws nor suspends
nor returns a `SCRIPT_RET` message. -/
theorem C3_wrong_arity_returns_exception (E : Env IValue PyObject Tensor)
    (R : RRefContext Ctx IValue PyObject) (request : Message Tensor)
    (op : ScriptCall IValue) (stack : List IValue) (w : World Ctx IValue PyObject)
    (htype : request.type = MessageType.SCRIPT_CALL)
    (hdecode : E.ScriptCall_fromMessage request = Except.ok op)
    (hrun : op.op.getOperation op.stack = Except.ok stack)
    (hsize : stack.length ≠ 1) :
    ∃ response : Message Tensor,
      (processRequestBlocking E R request w).1 = Outcome.returned response ∧
      response.type = MessageType.EXCEPTION ∧
      response.id = request.id ∧
      response.payload = (E.assertFailure stack.length).text ∧
      response.type ≠ MessageType.SCRIPT_RET := by
  refine ⟨⟨(E.assertFailure stack.length).text, [], MessageType.EXCEPTION, request.id⟩,
    ?_, rfl, rfl, rfl, ?_⟩
  · match stack, hsize with
    | [], _ =>
      simp [processRequestBlocking, htype, hdecode, hrun, createException_eq]
    | [_], h => exact absurd rfl h
    | _ :: _ :: _, _ =>
      simp [processRequestBlocking, htype, hdecode, hrun, createException_eq]
  · simp [Message.type]

/-- Witness of C3: the example direct call of the operator that leaves two values. -/
theorem C3_wrong_arity_returns_exception_witness :
    ∃ response : Message Unit,
      (processRequestBlocking Example.env Example.registry
        ⟨[2, 2, 3], [], MessageType.SCRIPT_CALL, 7⟩ Example.fresh).1 =
          Outcome.returned response ∧
      response.type = MessageType.EXCEPTION ∧
      response.id = (⟨[2, 2, 3], [], MessageType.SCRIPT_CALL, 7⟩ : Message Unit).id ∧
      response.payload = (Example.env.assertFailure [Example.Value.int 2,
        Example.Value.int 3].length).text ∧
      response.type ≠ MessageType.SCRIPT_RET :=
  C3_wrong_arity_returns_exception Example.env Example.registry
    ⟨[2, 2, 3], [], MessageType.SCRIPT_CALL, 7⟩
    ⟨Example.keep, [Example.Value.int 2, Example.Value.int 3]⟩
    [Example.Value.int 2, Example.Value.int 3] Example.fresh rfl rfl rfl (by decide)

/-- C4: a `SCRIPT_CALL` request that decodes and whose operation leaves exactly one value
`v` is answered by the `SCRIPT_RET` message of `v` (the wire form of `v` as payload and
tensors) with the id of the request; a `PYTHON_CALL` request on whose payload the Python
collaborator returns `bytes` is answered by a `PYTHON_RET` message with payload `bytes`,
no tensors and the id of the request. -/
theorem C4_successful_call_returns_result (E : Env IValue PyObject Tensor)
    (R : RRefContext Ctx IValue PyObject) (request : Message Tensor)
    (w : World Ctx IValue PyObject) :
    (∀ (op : ScriptCall IValue) (v : IValue),
      request.type = MessageType.SCRIPT_CALL →
      E.ScriptCall_fromMessage request = Except.ok op →
      op.op.getOperation op.stack = Except.ok [v] →
      ∃ response : Message Tensor,
        (processRequestBlocking E R request w).1 = Outcome.returned response ∧
        response = (ScriptRet.toMessage E v).setId request.id ∧
        response.type = MessageType.SCRIPT_RET ∧
        response.payload = (E.pickle v).1 ∧
        response.tensors = (E.pickle v).2 ∧
        response.id = request.id) ∧
    (∀ bytes : List Nat,
      request.type = MessageType.PYTHON_CALL →
      E.generatePythonUDFResult request.payload = Except.ok bytes →
      ∃ response : Message Tensor,
        (processRequestBlocking E R request w).1 = Outcome.returned response ∧
        response.type = MessageType.PYTHON_RET ∧
        response.payload = bytes ∧
        response.tensors = [] ∧
        response.id = request.id) := by
  constructor
  · intro op v htype hdecode hrun
    refine ⟨(ScriptRet.toMessage E v).setId request.id, ?_, rfl, rfl, rfl, rfl, rfl⟩
    simp [processRequestBlocking, htype, hdecode, hrun, Exec.tryCatch, Exec.andThen,
      runOperation, record]
  · intro bytes htype hrun
    refine ⟨⟨bytes, [], MessageType.PYTHON_RET, request.id⟩, ?_, rfl, rfl, rfl, rfl⟩
    simp [processRequestBlocking, htype, hrun, Exec.tryCatch, Exec.andThen,
      generatePythonUDFResult, record]

/-- Witness of C4: the example direct call `add(2, 3)` is answered by `SCRIPT_RET` of 5,
and the example opaque call of the function `[4, 5]` by `PYTHON_RET` with payload `[9]`. -/
theorem C4_successful_call_returns_result_witness :
    (∃ response : Message Unit,
      (processRequestBlocking Example.env Example.registry
        ⟨[0, 2, 3], [], MessageType.SCRIPT_CALL, 7⟩ Example.fresh).1 =
          Outcome.returned response ∧
      response = (ScriptRet.toMessage Example.env (Example.Value.int 5)).setId 7 ∧
      response.type = MessageType.SCRIPT_RET ∧
      response.payload = [5] ∧
      response.tensors = [] ∧
      response.id = 7) ∧
    (∃ response : Message Unit,
      (processRequestBlocking Example.env Example.registry
        ⟨[4, 5], [], MessageType.PYTHON_CALL, 8⟩ Example.fresh).1 =
          Outcome.returned response ∧
      response.type = MessageType.PYTHON_RET ∧
      response.payload = [9] ∧
      response.tensors = [] ∧
      response.id = 8) :=
  ⟨(C4_successful_call_returns_result Example.env Example.registry
      ⟨[0, 2, 3], [], MessageType.SCRIPT_CALL, 7⟩ Example.fresh).1
      ⟨Example.add, [Example.Value.int 2, Example.Value.int 3]⟩ (Example.Value.int 5)
      rfl rfl rfl,
    (C4_successful_call_returns_result Example.env Example.registry
      ⟨[4, 5], [], MessageType.PYTHON_CALL, 8⟩ Example.fresh).2 [9] rfl rfl⟩

end DirectCalls

/-! ## Remote creation -/

section RemoteCreate

variable {Ctx IValue PyObject Tensor : Type}

theorem remoteCall_calls (E : Env IValue PyObject Tensor)
    (R : RRefContext Ctx IValue PyObject) (request : Message Tensor)
    (w : World Ctx IValue PyObject) (src : ScriptRemoteCall IValue) (rrefId : RRefId)
    (forkId : ForkId) (h : DecodesRemoteCall E request src rrefId forkId) :
    ∃ rest, callsOf E R request w = Call.getOrCreateOwnerRRef RRefType.IValue rrefId ::
        ((if forkId ≠ rrefId then [Call.acceptUserRRef rrefId forkId rrefId.createdOn_]
          else []) ++ rest) ∧
      ∀ c ∈ rest, c.isGetOrCreateOwnerRRef = false ∧ c.isAcceptUserRRef = false := by
  obtain ⟨ht, hd, hr, hf⟩ := h
  by_cases hfr : forkId = rrefId
  · subst hfr
    cases hop : src.op.getOperation src.stack with
    | error e =>
      refine ⟨[Call.operation src.stack], ?_, by simp [Call.isGetOrCreateOwnerRRef, Call.isAcceptUserRRef]⟩
      simp [callsOf, processRequestBlocking, ht, hd, hr, hf, hop]
    | ok stack =>
      match stack with
      | [] =>
        refine ⟨[Call.operation src.stack], ?_, by simp [Call.isGetOrCreateOwnerRRef, Call.isAcceptUserRRef]⟩
        simp [callsOf, processRequestBlocking, ht, hd, hr, hf, hop]
      | [v] =>
        refine ⟨[Call.operation src.stack, Call.setValue forkId v], ?_, by simp [Call.isGetOrCreateOwnerRRef, Call.isAcceptUserRRef]⟩
        rcases hset : R.setValue forkId v (R.getOrCreateOwnerRRef RRefType.IValue forkId w.ctx)
          with ⟨_ | _ | _, c3⟩ <;>
        simp [callsOf, processRequestBlocking, ht, hd, hr, hf, hop, hset]
      | _ :: _ :: _ =>
        refine ⟨[Call.operation src.stack], ?_, by simp [Call.isGetOrCreateOwnerRRef, Call.isAcceptUserRRef]⟩
        simp [callsOf, processRequestBlocking, ht, hd, hr, hf, hop]
  · rcases hacc : R.acceptUserRRef rrefId forkId rrefId.createdOn_
        (R.getOrCreateOwnerRRef RRefType.IValue rrefId w.ctx) with ⟨_ | _ | _, c2⟩
    · cases hop : src.op.getOperation src.stack with
      | error e =>
        refine ⟨[Call.operation src.stack], ?_, by simp [Call.isGetOrCreateOwnerRRef, Call.isAcceptUserRRef]⟩
        simp [callsOf, processRequestBlocking, ht, hd, hr, hf, hop, hfr, hacc]
      | ok stack =>
        match stack with
        | [] =>
          refine ⟨[Call.operation src.stack], ?_, by simp [Call.isGetOrCreateOwnerRRef, Call.isAcceptUserRRef]⟩
          simp [callsOf, processRequestBlocking, ht, hd, hr, hf, hop, hfr, hacc]
        | [v] =>
          refine ⟨[Call.operation src.stack, Call.setValue rrefId v], ?_, by simp [Call.isGetOrCreateOwnerRRef, Call.isAcceptUserRRef]⟩
          rcases hset : R.setValue rrefId v c2 with ⟨_ | _ | _, c3⟩ <;>
          simp [callsOf, processRequestBlocking, ht, hd, hr, hf, hop, hfr, hacc, hset]
        | _ :: _ :: _ =>
          refine ⟨[Call.operation src.stack], ?_, by simp [Call.isGetOrCreateOwnerRRef, Call.isAcceptUserRRef]⟩
          simp [callsOf, processRequestBlocking, ht, hd, hr, hf, hop, hfr, hacc]
    · refine ⟨[], ?_, by simp⟩
      simp [callsOf, processRequestBlocking, ht, hd, hr, hf, hfr, hacc]
    · refine ⟨[], ?_, by simp⟩
      simp [callsOf, processRequestBlocking, ht, hd, hr, hf, hfr, hacc]

theorem pythonRemoteCall_calls (E : Env IValue PyObject Tensor)
    (R : RRefContext Ctx IValue PyObject) (request : Message Tensor)
    (w : World Ctx IValue PyObject) (prc : PythonRemoteCall IValue) (rrefId : RRefId)
    (forkId : ForkId) (h : DecodesPythonRemoteCall E request prc rrefId forkId) :
    ∃ rest, callsOf E R request w = Call.getOrCreateOwnerRRef RRefType.py_object rrefId ::
        ((if forkId ≠ rrefId then [Call.acceptUserRRef rrefId forkId rrefId.createdOn_]
          else []) ++ rest) ∧
      ∀ c ∈ rest, c.isGetOrCreateOwnerRRef = false ∧ c.isAcceptUserRRef = false := by
  obtain ⟨ht, hd, hr, hf⟩ := h
  by_cases hfr : forkId = rrefId
  · subst hfr
    cases hop : E.runPythonUDF prc.udf with
    | error e =>
      refine ⟨[Call.runPythonUDF prc.udf], ?_, by simp [Call.isGetOrCreateOwnerRRef, Call.isAcceptUserRRef]⟩
      simp [callsOf, processRequestBlocking, ht, hd, hr, hf, hop]
    | ok v =>
      refine ⟨[Call.runPythonUDF prc.udf, Call.setValuePy forkId v], ?_, by simp [Call.isGetOrCreateOwnerRRef, Call.isAcceptUserRRef]⟩
      rcases hset : R.setValuePy forkId v
          (R.getOrCreateOwnerRRef RRefType.py_object forkId w.ctx) with ⟨_ | _ | _, c3⟩ <;>
      simp [callsOf, processRequestBlocking, ht, hd, hr, hf, hop, hset]
  · rcases hacc : R.acceptUserRRef rrefId forkId rrefId.createdOn_
        (R.getOrCreateOwnerRRef RRefType.py_object rrefId w.ctx) with ⟨_ | _ | _, c2⟩
    · cases hop : E.runPythonUDF prc.udf with
      | error e =>
        refine ⟨[Call.runPythonUDF prc.udf], ?_, by simp [Call.isGetOrCreateOwnerRRef, Call.isAcceptUserRRef]⟩
        simp [callsOf, processRequestBlocking, ht, hd, hr, hf, hop, hfr, hacc]
      | ok v =>
        refine ⟨[Call.runPythonUDF prc.udf, Call.setValuePy rrefId v], ?_, by simp [Call.isGetOrCreateOwnerRRef, Call.isAcceptUserRRef]⟩
        rcases hset : R.setValuePy rrefId v c2 with ⟨_ | _ | _, c3⟩ <;>
        simp [callsOf, processRequestBlocking, ht, hd, hr, hf, hop, hfr, hacc, hset]
    · refine ⟨[], ?_, by simp⟩
      simp [callsOf, processRequestBlocking, ht, hd, hr, hf, hfr, hacc]
    · refine ⟨[], ?_, by simp⟩
      simp [callsOf, processRequestBlocking, ht, hd, hr, hf, hfr, hacc]

theorem remoteCreate_calls (E : Env IValue PyObject Tensor)
    (R : RRefContext Ctx IValue PyObject) (request : Message Tensor)
    (w : World Ctx IValue PyObject) (T : RRefType) (rrefId : RRefId) (forkId : ForkId)
    (h : RemoteCreate E request T rrefId forkId) :
    ∃ rest, callsOf E R request w = Call.getOrCreateOwnerRRef T rrefId ::
        ((if forkId ≠ rrefId then [Call.acceptUserRRef rrefId forkId rrefId.createdOn_]
          else []) ++ rest) ∧
      ∀ c ∈ rest, c.isGetOrCreateOwnerRRef = false ∧ c.isAcceptUserRRef = false := by
  rcases h with ⟨hT, src, hsrc⟩ | ⟨hT, prc, hprc⟩
  · subst hT
    exact remoteCall_calls E R request w src rrefId forkId hsrc
  · subst hT
    exact pythonRemoteCall_calls E R request w prc rrefId forkId hprc

theorem filter_eq_nil_of_forall {α : Type} (p : α → Bool) (l : List α)
    (h : ∀ c ∈ l, p c = false) : l.filter p = [] := by
  rw [List.filter_eq_nil_iff]
  intro c hc
  simp [h c hc]

/-- C5: a remote-create request carrying `(rrefId, forkId)` makes the dispatcher call
`getOrCreateOwnerRRef(rrefId)` exactly once; it calls the fork registration
`acceptUserRRef` exactly once, for `(rrefId, forkId)`, if `forkId` differs from `rrefId`,
and not at all if `forkId` equals `rrefId`. -/
theorem C5_remote_create_owner_and_fork (E : Env IValue PyObject Tensor)
    (R : RRefContext Ctx IValue PyObject) (request : Message Tensor)
    (w : World Ctx IValue PyObject) (T : RRefType) (rrefId : RRefId) (forkId : ForkId)
    (h : RemoteCreate E request T rrefId forkId) :
    (callsOf E R request w).filter Call.isGetOrCreateOwnerRRef =
        [Call.getOrCreateOwnerRRef T rrefId] ∧
    ((∃ origin, Call.acceptUserRRef rrefId forkId origin ∈ callsOf E R request w) ↔
        forkId ≠ rrefId) ∧
    ((forkId = rrefId ∧ (callsOf E R request w).filter Call.isAcceptUserRRef = []) ∨
      (forkId ≠ rrefId ∧ ∃ origin, (callsOf E R request w).filter Call.isAcceptUserRRef =
        [Call.acceptUserRRef rrefId forkId origin])) := by
  obtain ⟨rest, hcalls, hrest⟩ := remoteCreate_calls E R request w T rrefId forkId h
  have h1 : rest.filter Call.isGetOrCreateOwnerRRef = [] :=
    filter_eq_nil_of_forall _ _ (fun c hc => (hrest c hc).1)
  have h2 : rest.filter Call.isAcceptUserRRef = [] :=
    filter_eq_nil_of_forall _ _ (fun c hc => (hrest c hc).2)
  have h3 : ∀ origin, Call.acceptUserRRef rrefId forkId origin ∉ rest := by
    intro origin hmem
    have := (hrest _ hmem).2
    simp [Call.isAcceptUserRRef] at this
  rw [hcalls]
  by_cases hfr : forkId = rrefId
  · simp [hfr, List.filter_cons, Call.isGetOrCreateOwnerRRef, Call.isAcceptUserRRef, h1, h2]
    intro origin hmem
    exact h3 origin (hfr ▸ hmem)
  · simp [hfr, List.filter_cons, Call.isGetOrCreateOwnerRRef, Call.isAcceptUserRRef, h1, h2]

/-- Witness of C5: the example `REMOTE_CALL` of a user, `rrefId = (0, 1)` and
`forkId = (1, 1)`. -/
theorem C5_remote_create_owner_and_fork_witness :
    (callsOf Example.env Example.registry
        (⟨[0, 1, 1, 1, 0, 2, 3], [], MessageType.REMOTE_CALL, 7⟩ : Message Unit)
        Example.fresh).filter Call.isGetOrCreateOwnerRRef =
        [Call.getOrCreateOwnerRRef RRefType.IValue ⟨0, 1⟩] ∧
    ((∃ origin, Call.acceptUserRRef ⟨0, 1⟩ ⟨1, 1⟩ origin ∈
        callsOf Example.env Example.registry
          (⟨[0, 1, 1, 1, 0, 2, 3], [], MessageType.REMOTE_CALL, 7⟩ : Message Unit)
          Example.fresh) ↔ (⟨1, 1⟩ : ForkId) ≠ ⟨0, 1⟩) ∧
    (((⟨1, 1⟩ : ForkId) = ⟨0, 1⟩ ∧
        (callsOf Example.env Example.registry
          (⟨[0, 1, 1, 1, 0, 2, 3], [], MessageType.REMOTE_CALL, 7⟩ : Message Unit)
          Example.fresh).filter Call.isAcceptUserRRef = []) ∨
      ((⟨1, 1⟩ : ForkId) ≠ ⟨0, 1⟩ ∧ ∃ origin,
        (callsOf Example.env Example.registry
          (⟨[0, 1, 1, 1, 0, 2, 3], [], MessageType.REMOTE_CALL, 7⟩ : Message Unit)
          Example.fresh).filter Call.isAcceptUserRRef =
          [Call.acceptUserRRef ⟨0, 1⟩ ⟨1, 1⟩ origin])) :=
  C5_remote_create_owner_and_fork Example.env Example.registry
    ⟨[0, 1, 1, 1, 0, 2, 3], [], MessageType.REMOTE_CALL, 7⟩ Example.fresh RRefType.IValue
    ⟨0, 1⟩ ⟨1, 1⟩ (Or.inl ⟨rfl, ⟨_, rfl, rfl, rfl, rfl⟩⟩)

/-- C9 as stated fails: in the example `REMOTE_CALL` with `rrefId = (0, 1)` and
`forkId = (1, 1)` the origin handed to `acceptUserRRef` is worker 0, stamped in `rrefId`,
and not worker 1, recorded in `forkId`. -/
theorem C9_origin_counterexample :
    RemoteCreate Example.env
        (⟨[0, 1, 1, 1, 0, 2, 3], [], MessageType.REMOTE_CALL, 7⟩ : Message Unit)
        RRefType.IValue ⟨0, 1⟩ ⟨1, 1⟩ ∧
    (⟨1, 1⟩ : ForkId) ≠ ⟨0, 1⟩ ∧
    (callsOf Example.env Example.registry
        (⟨[0, 1, 1, 1, 0, 2, 3], [], MessageType.REMOTE_CALL, 7⟩ : Message Unit)
        Example.fresh).filter Call.isAcceptUserRRef =
      [Call.acceptUserRRef ⟨0, 1⟩ ⟨1, 1⟩ 0] ∧
    (callsOf Example.env Example.registry
        (⟨[0, 1, 1, 1, 0, 2, 3], [], MessageType.REMOTE_CALL, 7⟩ : Message Unit)
        Example.fresh).filter Call.isAcceptUserRRef ≠
      [Call.acceptUserRRef ⟨0, 1⟩ ⟨1, 1⟩ (⟨1, 1⟩ : ForkId).createdOn_] :=
  ⟨Or.inl ⟨rfl, ⟨_, rfl, rfl, rfl, rfl⟩⟩, by decide, by decide, by decide⟩

/-- C9, amended: for a remote-create request with `forkId` different from `rrefId`, the
origin handed to the single `acceptUserRRef` call is `rrefId.createdOn_`, the worker id
stamped in `rrefId`; it is the worker id recorded in `forkId` exactly when the two ids
carry the same worker id. -/
theorem C9_origin_is_rrefId_worker (E : Env IValue PyObject Tensor)
    (R : RRefContext Ctx IValue PyObject) (request : Message Tensor)
    (w : World Ctx IValue PyObject) (T : RRefType) (rrefId : RRefId) (forkId : ForkId)
    (h : RemoteCreate E request T rrefId forkId) (hfork : forkId ≠ rrefId) :
    (callsOf E R request w).filter Call.isAcceptUserRRef =
        [Call.acceptUserRRef rrefId forkId rrefId.createdOn_] ∧
    ((callsOf E R request w).filter Call.isAcceptUserRRef =
        [Call.acceptUserRRef rrefId forkId forkId.createdOn_] ↔
      rrefId.createdOn_ = forkId.createdOn_) := by
  obtain ⟨rest, hcalls, hrest⟩ := remoteCreate_calls E R request w T rrefId forkId h
  have h2 : rest.filter Call.isAcceptUserRRef = [] :=
    filter_eq_nil_of_forall _ _ (fun c hc => (hrest c hc).2)
  rw [hcalls]
  simp [hfork, List.filter_cons, Call.isAcceptUserRRef, h2]

/-- Witness of C9, amended: the example `PYTHON_REMOTE_CALL` of a user, `rrefId = (2, 5)`
and `forkId = (3, 1)`. -/
theorem C9_origin_is_rrefId_worker_witness :
    (callsOf Example.env Example.registry
        (⟨[2, 5, 3, 1, 4, 4], [], MessageType.PYTHON_REMOTE_CALL, 7⟩ : Message Unit)
        Example.fresh).filter Call.isAcceptUserRRef =
        [Call.acceptUserRRef ⟨2, 5⟩ ⟨3, 1⟩ (⟨2, 5⟩ : RRefId).createdOn_] ∧
    ((callsOf Example.env Example.registry
        (⟨[2, 5, 3, 1, 4, 4], [], MessageType.PYTHON_REMOTE_CALL, 7⟩ : Message Unit)
        Example.fresh).filter Call.isAcceptUserRRef =
        [Call.acceptUserRRef ⟨2, 5⟩ ⟨3, 1⟩ (⟨3, 1⟩ : ForkId).createdOn_] ↔
      (⟨2, 5⟩ : RRefId).createdOn_ = (⟨3, 1⟩ : ForkId).createdOn_) :=
  C9_origin_is_rrefId_worker Example.env Example.registry
    ⟨[2, 5, 3, 1, 4, 4], [], MessageType.PYTHON_REMOTE_CALL, 7⟩ Example.fresh
    RRefType.py_object ⟨2, 5⟩ ⟨3, 1⟩ (Or.inr ⟨rfl, ⟨_, rfl, rfl, rfl, rfl⟩⟩) (by decide)

end RemoteCreate

/-! ## Remote creation on the owner table of the specification -/

section OwnerTable

variable {IValue PyObject Tensor V : Type}

theorem lookup_append_fresh (id : RRefId) (x : Option V) (table : List (RRefId × Option V))
    (h : table.lookup id = none) : (table ++ [(id, x)]).lookup id = some x := by
  induction table with
  | nil => simp
  | cons p ps ih =>
    obtain ⟨k, y⟩ := p
    by_cases hk : id = k
    · subst hk
      simp at h
    · have hb : (id == k) = false := by simpa using hk
      rw [List.lookup_cons, hb] at h
      rw [List.cons_append, List.lookup_cons, hb]
      exact ih h

theorem lookup_map_setValue (id : RRefId) (v : V) (table : List (RRefId × Option V))
    (x : Option V) (h : table.lookup id = some x) :
    (table.map (fun p => if p.1 = id then (p.1, some v) else p)).lookup id = some (some v) := by
  induction table with
  | nil => simp at h
  | cons p ps ih =>
    obtain ⟨k, y⟩ := p
    by_cases hk : id = k
    · subst hk
      simp
    · have hb : (id == k) = false := by simpa using hk
      have hk2 : ¬ k = id := fun h2 => hk h2.symm
      rw [List.lookup_cons, hb] at h
      rw [List.map_cons, if_neg hk2, List.lookup_cons, hb]
      exact ih h

theorem ownerState_getOrCreateOwnerRRef (T : RRefType) (id : RRefId)
    (c : SpecCtx IValue PyObject) (h : c.ownerState T id = none) :
    (SpecCtx.getOrCreateOwnerRRef T id c).ownerState T id = some false := by
  cases T with
  | IValue =>
    have h1 : c.owners.lookup id = none := by simpa [SpecCtx.ownerState] using h
    simp [SpecCtx.ownerState, SpecCtx.getOrCreateOwnerRRef, SpecCtx.getOrCreate, h1,
      lookup_append_fresh]
  | py_object =>
    have h1 : c.pyOwners.lookup id = none := by simpa [SpecCtx.ownerState] using h
    simp [SpecCtx.ownerState, SpecCtx.getOrCreateOwnerRRef, SpecCtx.getOrCreate, h1,
      lookup_append_fresh]

theorem ownerState_acceptUserRRef (T : RRefType) (id rrefId : RRefId) (forkId : ForkId)
    (origin : Nat) (c : SpecCtx IValue PyObject) :
    (SpecCtx.acceptUserRRef rrefId forkId origin c).2.ownerState T id = c.ownerState T id := by
  cases T <;> rfl

theorem mem_confirmedForks_acceptUserRRef (rrefId : RRefId) (forkId : ForkId)
    (origin : Nat) (c : SpecCtx IValue PyObject) :
    (rrefId, forkId) ∈ (SpecCtx.acceptUserRRef rrefId forkId origin c).2.confirmedForks := by
  by_cases h : (rrefId, forkId) ∈ c.confirmedForks
  · simp [SpecCtx.acceptUserRRef, h]
  · simp [SpecCtx.acceptUserRRef, h]

theorem remoteCreate_fail_run (E : Env IValue PyObject Tensor)
    (F : ForkLifecycle (SpecCtx IValue PyObject) IValue) (request : Message Tensor)
    (w : World (SpecCtx IValue PyObject) IValue PyObject) (T : RRefType) (rrefId : RRefId)
    (forkId : ForkId) (h : RemoteCreateFails E request T rrefId forkId) :
    ∃ e exec, exec.isExecution = true ∧ exec.isSetValue = false ∧
      processRequestBlocking E (specContext F) request w =
        (Outcome.threw e,
          ⟨if forkId ≠ rrefId then
              (SpecCtx.acceptUserRRef rrefId forkId rrefId.createdOn_
                (SpecCtx.getOrCreateOwnerRRef T rrefId w.ctx)).2
            else SpecCtx.getOrCreateOwnerRRef T rrefId w.ctx,
            w.calls ++ Call.getOrCreateOwnerRRef T rrefId ::
              ((if forkId ≠ rrefId then
                  [Call.acceptUserRRef rrefId forkId rrefId.createdOn_] else []) ++
                [exec])⟩) := by
  rcases h with ⟨hT, src, ⟨ht, hd, hr, hf⟩, hfail⟩ | ⟨hT, prc, ⟨ht, hd, hr, hf⟩, e, hop⟩
  · subst hT
    rcases hfail with ⟨e, hop⟩ | ⟨stack, hop, hlen⟩
    · refine ⟨e, Call.operation src.stack, rfl, rfl, ?_⟩
      by_cases hfr : forkId = rrefId
      · simp [processRequestBlocking, ht, hd, hr, hf, hop, hfr, specContext]
      · simp [processRequestBlocking, ht, hd, hr, hf, hop, hfr, specContext,
          SpecCtx.acceptUserRRef]
    · refine ⟨E.assertFailure stack.length, Call.operation src.stack, rfl, rfl, ?_⟩
      match stack, hlen with
      | [], _ =>
        by_cases hfr : forkId = rrefId
        · simp [processRequestBlocking, ht, hd, hr, hf, hop, hfr, specContext]
        · simp [processRequestBlocking, ht, hd, hr, hf, hop, hfr, specContext,
            SpecCtx.acceptUserRRef]
      | [_], hl => exact absurd rfl hl
      | _ :: _ :: _, _ =>
        by_cases hfr : forkId = rrefId
        · simp [processRequestBlocking, ht, hd, hr, hf, hop, hfr, specContext]
        · simp [processRequestBlocking, ht, hd, hr, hf, hop, hfr, specContext,
            SpecCtx.acceptUserRRef]
  · subst hT
    refine ⟨e, Call.runPythonUDF prc.udf, rfl, rfl, ?_⟩
    by_cases hfr : forkId = rrefId
    · simp [processRequestBlocking, ht, hd, hr, hf, hop, hfr, specContext]
    · simp [processRequestBlocking, ht, hd, hr, hf, hop, hfr, specContext,
        SpecCtx.acceptUserRRef]

/-- C10 as stated fails: the example `REMOTE_CALL` with `rrefId = forkId = (0, 1)` and the
operator that throws, dispatched a second time, finds the owner entry left by the first
dispatch; the second dispatch fails as well and leaves the registry state exactly as it
found it. -/
theorem C10_state_unchanged_counterexample :
    RemoteCreateFails Example.env
        (⟨[0, 1, 0, 1, 1, 2, 3], [], MessageType.REMOTE_CALL, 7⟩ : Message Unit)
        RRefType.IValue ⟨0, 1⟩ ⟨0, 1⟩ ∧
    (processRequestBlocking Example.env Example.registry
        ⟨[0, 1, 0, 1, 1, 2, 3], [], MessageType.REMOTE_CALL, 7⟩
        (processRequestBlocking Example.env Example.registry
          ⟨[0, 1, 0, 1, 1, 2, 3], [], MessageType.REMOTE_CALL, 7⟩ Example.fresh).2).1 =
      Outcome.threw Example.boom ∧
    (processRequestBlocking Example.env Example.registry
        ⟨[0, 1, 0, 1, 1, 2, 3], [], MessageType.REMOTE_CALL, 7⟩
        (processRequestBlocking Example.env Example.registry
          ⟨[0, 1, 0, 1, 1, 2, 3], [], MessageType.REMOTE_CALL, 7⟩ Example.fresh).2).2.ctx =
      (processRequestBlocking Example.env Example.registry
        ⟨[0, 1, 0, 1, 1, 2, 3], [], MessageType.REMOTE_CALL, 7⟩ Example.fresh).2.ctx :=
  ⟨Or.inl ⟨rfl, ⟨_, ⟨rfl, rfl, rfl, rfl⟩, Or.inl ⟨_, rfl⟩⟩⟩, by decide, by decide⟩

/-- C10, amended: for a remote-create request that arrives when the registry has no owner
entry for `rrefId`, the owner entry is created and (when `forkId` differs from `rrefId`)
the fork is accepted before the operation is executed; when the operation throws or (for
`REMOTE_CALL`) leaves a stack of size other than one, the dispatch throws, `setValue` is
never called, and the registry is left holding the owner entry of `rrefId` with an unset
value together with the accepted fork, so its state differs from the state before. -/
theorem C10_failed_remote_create_leaves_unset_owner (E : Env IValue PyObject Tensor)
    (F : ForkLifecycle (SpecCtx IValue PyObject) IValue) (request : Message Tensor)
    (w : World (SpecCtx IValue PyObject) IValue PyObject) (T : RRefType) (rrefId : RRefId)
    (forkId : ForkId) (h : RemoteCreateFails E request T rrefId forkId)
    (hfresh : w.ctx.ownerState T rrefId = none) :
    (∃ e, (processRequestBlocking E (specContext F) request w).1 = Outcome.threw e) ∧
    (∃ exec, exec.isExecution = true ∧
      callsOf E (specContext F) request w = Call.getOrCreateOwnerRRef T rrefId ::
        ((if forkId ≠ rrefId then [Call.acceptUserRRef rrefId forkId rrefId.createdOn_]
          else []) ++ [exec])) ∧
    (∀ c ∈ callsOf E (specContext F) request w, c.isSetValue = false) ∧
    (processRequestBlocking E (specContext F) request w).2.ctx.ownerState T rrefId =
      some false ∧
    (forkId ≠ rrefId →
      (rrefId, forkId) ∈
        (processRequestBlocking E (specContext F) request w).2.ctx.confirmedForks) ∧
    (processRequestBlocking E (specContext F) request w).2.ctx ≠ w.ctx := by
  obtain ⟨e, exec, hexec, hset, hrun⟩ := remoteCreate_fail_run E F request w T rrefId forkId h
  have hstate : (processRequestBlocking E (specContext F) request w).2.ctx.ownerState T rrefId =
      some false := by
    rw [hrun]
    by_cases hfr : forkId = rrefId
    · simpa [hfr] using ownerState_getOrCreateOwnerRRef T rrefId w.ctx hfresh
    · simpa [hfr, ownerState_acceptUserRRef] using
        ownerState_getOrCreateOwnerRRef T rrefId w.ctx hfresh
  refine ⟨⟨e, by rw [hrun]⟩, ⟨exec, hexec, ?_⟩, ?_, hstate, ?_, ?_⟩
  · simp [callsOf, hrun]
  · intro c hc
    by_cases hfr : forkId = rrefId
    · simp [callsOf, hrun, hfr] at hc
      rcases hc with hc | hc
      · subst hc
        rfl
      · subst hc
        exact hset
    · simp [callsOf, hrun, hfr] at hc
      rcases hc with hc | hc | hc
      · subst hc
        rfl
      · subst hc
        rfl
      · subst hc
        exact hset
  · intro hfr
    rw [hrun]
    simpa [hfr] using mem_confirmedForks_acceptUserRRef rrefId forkId rrefId.createdOn_
      (SpecCtx.getOrCreateOwnerRRef T rrefId w.ctx)
  · intro heq
    rw [heq, hfresh] at hstate
    exact absurd hstate (by simp)

/-- Witness of C10, amended: the example `REMOTE_CALL` of a user, `rrefId = (0, 1)` and
`forkId = (1, 1)`, with the operator that throws, on a fresh registry. -/
theorem C10_failed_remote_create_leaves_unset_owner_witness :
    (∃ e, (processRequestBlocking Example.env (specContext Example.idle)
      (⟨[0, 1, 1, 1, 1, 2, 3], [], MessageType.REMOTE_CALL, 7⟩ : Message Unit)
      Example.fresh).1 = Outcome.threw e) ∧
    (∃ exec, exec.isExecution = true ∧
      callsOf Example.env (specContext Example.idle)
        (⟨[0, 1, 1, 1, 1, 2, 3], [], MessageType.REMOTE_CALL, 7⟩ : Message Unit)
        Example.fresh = Call.getOrCreateOwnerRRef RRefType.IValue ⟨0, 1⟩ ::
          ((if (⟨1, 1⟩ : ForkId) ≠ ⟨0, 1⟩ then
              [Call.acceptUserRRef ⟨0, 1⟩ ⟨1, 1⟩ (⟨0, 1⟩ : RRefId).createdOn_]
            else []) ++ [exec])) ∧
    (∀ c ∈ callsOf Example.env (specContext Example.idle)
        (⟨[0, 1, 1, 1, 1, 2, 3], [], MessageType.REMOTE_CALL, 7⟩ : Message Unit)
        Example.fresh, c.isSetValue = false) ∧
    (processRequestBlocking Example.env (specContext Example.idle)
      (⟨[0, 1, 1, 1, 1, 2, 3], [], MessageType.REMOTE_CALL, 7⟩ : Message Unit)
      Example.fresh).2.ctx.ownerState RRefType.IValue ⟨0, 1⟩ = some false ∧
    ((⟨1, 1⟩ : ForkId) ≠ ⟨0, 1⟩ →
      ((⟨0, 1⟩ : RRefId), (⟨1, 1⟩ : ForkId)) ∈
        (processRequestBlocking Example.env (specContext Example.idle)
          (⟨[0, 1, 1, 1, 1, 2, 3], [], MessageType.REMOTE_CALL, 7⟩ : Message Unit)
          Example.fresh).2.ctx.confirmedForks) ∧
    (processRequestBlocking Example.env (specContext Example.idle)
      (⟨[0, 1, 1, 1, 1, 2, 3], [], MessageType.REMOTE_CALL, 7⟩ : Message Unit)
      Example.fresh).2.ctx ≠ Example.fresh.ctx :=
  C10_failed_remote_create_leaves_unset_owner Example.env Example.idle
    ⟨[0, 1, 1, 1, 1, 2, 3], [], MessageType.REMOTE_CALL, 7⟩ Example.fresh RRefType.IValue
    ⟨0, 1⟩ ⟨1, 1⟩ (Or.inl ⟨rfl, ⟨_, ⟨rfl, rfl, rfl, rfl⟩, Or.inl ⟨_, rfl⟩⟩⟩) rfl

/-- C6: on a registry with no owner entry for `rrefId`, a `REMOTE_CALL` for
`(rrefId, forkId = rrefId)` whose operation leaves the single value `v` returns the empty
acknowledgment, which carries no payload and no tensors, and a following `RREF_FETCH` for
`rrefId` returns the fetch result message of exactly `v` with the id of the fetch
request. -/
theorem C6_remote_create_then_fetch (E : Env IValue PyObject Tensor)
    (F : ForkLifecycle (SpecCtx IValue PyObject) IValue) (remote fetch : Message Tensor)
    (w : World (SpecCtx IValue PyObject) IValue PyObject) (src : ScriptRemoteCall IValue)
    (srf : RRefMessageBase IValue) (rrefId : RRefId) (v : IValue)
    (hremote : DecodesRemoteCall E remote src rrefId rrefId)
    (hfresh : w.ctx.ownerState RRefType.IValue rrefId = none)
    (hop : src.op.getOperation src.stack = Except.ok [v])
    (hfetch : fetch.type = MessageType.RREF_FETCH)
    (hsrf : E.ScriptRRefFetch_fromMessage fetch = Except.ok srf)
    (hid : E.RRefId_fromIValue srf.value = Except.ok rrefId) :
    (processRequestBlocking E (specContext F) remote w).1 = Outcome.returned Message.empty ∧
    (Message.empty : Message Tensor).payload = [] ∧
    (Message.empty : Message Tensor).tensors = [] ∧
    ∃ response : Message Tensor,
      (processRequestBlocking E (specContext F) fetch
        (processRequestBlocking E (specContext F) remote w).2).1 =
          Outcome.returned response ∧
      response = (ScriptRRefValue.toMessage E v).setId fetch.id ∧
      response.type = MessageType.RREF_VALUE ∧
      response.payload = (E.pickle v).1 ∧
      response.tensors = (E.pickle v).2 ∧
      response.id = fetch.id := by
  obtain ⟨ht, hd, hr, hf⟩ := hremote
  have h1 : w.ctx.owners.lookup rrefId = none := by simpa [SpecCtx.ownerState] using hfresh
  have h2 : (w.ctx.owners ++ [(rrefId, none)]).lookup rrefId = some none :=
    lookup_append_fresh rrefId none w.ctx.owners h1
  have h3 := lookup_map_setValue rrefId v (w.ctx.owners ++ [(rrefId, none)]) none h2
  have hrun : processRequestBlocking E (specContext F) remote w =
      (Outcome.returned Message.empty,
        ⟨⟨List.map (fun p => if p.1 = rrefId then (p.1, some v) else p)
            (w.ctx.owners ++ [(rrefId, none)]), w.ctx.pyOwners, w.ctx.confirmedForks,
            w.ctx.userAccepts⟩,
          w.calls ++ [Call.getOrCreateOwnerRRef RRefType.IValue rrefId,
            Call.operation src.stack, Call.setValue rrefId v]⟩) := by
    simp [processRequestBlocking, ht, hd, hr, hf, hop, specContext,
      SpecCtx.getOrCreateOwnerRRef, SpecCtx.getOrCreate, SpecCtx.setValueIn, h1, h2]
  refine ⟨by rw [hrun], rfl, rfl, (ScriptRRefValue.toMessage E v).setId fetch.id, ?_,
    rfl, rfl, rfl, rfl, rfl⟩
  have hget : ∀ w1 : World (SpecCtx IValue PyObject) IValue PyObject,
      w1.ctx.owners.lookup rrefId = some (some v) →
      (processRequestBlocking E (specContext F) fetch w1).1 =
        Outcome.returned ((ScriptRRefValue.toMessage E v).setId fetch.id) := by
    intro w1 hl
    simp [processRequestBlocking, hfetch, hsrf, hid, specContext,
      SpecCtx.getOrCreateOwnerRRef, SpecCtx.getOrCreate, SpecCtx.getValueIn, hl]
  rw [hrun]
  exact hget _ h3

/-- Witness of C6: `rrefId = forkId = (0, 1)`, operation `add(2, 3)`; the fetch returns 5
under the id 9 of the fetch request. -/
theorem C6_remote_create_then_fetch_witness :
    (processRequestBlocking Example.env (specContext Example.idle)
      (⟨[0, 1, 0, 1, 0, 2, 3], [], MessageType.REMOTE_CALL, 7⟩ : Message Unit)
      Example.fresh).1 = Outcome.returned Message.empty ∧
    (Message.empty : Message Unit).payload = [] ∧
    (Message.empty : Message Unit).tensors = [] ∧
    ∃ response : Message Unit,
      (processRequestBlocking Example.env (specContext Example.idle)
        ⟨[0, 1], [], MessageType.RREF_FETCH, 9⟩
        (processRequestBlocking Example.env (specContext Example.idle)
          (⟨[0, 1, 0, 1, 0, 2, 3], [], MessageType.REMOTE_CALL, 7⟩ : Message Unit)
          Example.fresh).2).1 = Outcome.returned response ∧
      response = (ScriptRRefValue.toMessage Example.env (Example.Value.int 5)).setId 9 ∧
      response.type = MessageType.RREF_VALUE ∧
      response.payload = [5] ∧
      response.tensors = [] ∧
      response.id = 9 :=
  C6_remote_create_then_fetch Example.env Example.idle
    ⟨[0, 1, 0, 1, 0, 2, 3], [], MessageType.REMOTE_CALL, 7⟩
    ⟨[0, 1], [], MessageType.RREF_FETCH, 9⟩ Example.fresh
    ⟨Example.add, [Example.Value.int 2, Example.Value.int 3], Example.Value.id 0 1,
      Example.Value.id 0 1⟩
    ⟨Example.Value.id 0 1⟩ ⟨0, 1⟩ (Example.Value.int 5) ⟨rfl, rfl, rfl, rfl⟩ rfl rfl rfl rfl
    rfl

end OwnerTable

/-! ## Control requests, unsupported tags and escaping failures -/

section Control

variable {Ctx IValue PyObject Tensor : Type}

/-- C7: a fork lifecycle control request makes the dispatcher perform exactly one call,
the registry transition that its tag stands for, applied to the decoded arguments
(`RREF_USER_ACCEPT` to `finishUserRRef`, `RREF_USER_DELETE` to `delForkOfOwner`,
`RREF_FORK_NOTIFY` to `acceptForkRequest`, `RREF_FORK_ACCEPT` to `finishForkRequest`);
nothing is executed, the registry is left in the state the transition leaves, and once
the transition returns the dispatcher returns the empty acknowledgment. -/
theorem C7_fork_control_single_transition (E : Env IValue PyObject Tensor)
    (R : RRefContext Ctx IValue PyObject) (request : Message Tensor)
    (w : World Ctx IValue PyObject) (call : Call IValue PyObject)
    (transition : Ctx → Outcome Unit × Ctx) (h : ForkControl E R request call transition) :
    callsOf E R request w = [call] ∧
    call.isRegistry = true ∧
    (∀ c ∈ callsOf E R request w, c.isExecution = false) ∧
    (processRequestBlocking E R request w).2.ctx = (transition w.ctx).2 ∧
    (processRequestBlocking E R request w).1 =
      (match (transition w.ctx).1 with
        | Outcome.returned _ => Outcome.returned Message.empty
        | Outcome.threw e => Outcome.threw e
        | Outcome.blocked => Outcome.blocked) := by
  rcases h with ⟨ht, m, hd, hc, htr⟩ | ⟨ht, m, hd, hc, htr⟩ | ⟨ht, m, hd, hc, htr⟩ |
    ⟨ht, m, hd, hc, htr⟩
  · subst hc htr
    rcases hrun : R.finishUserRRef m.value w.ctx with ⟨_ | _ | _, c1⟩ <;>
    simp [callsOf, processRequestBlocking, ht, hd, hrun, Call.isRegistry, Call.isExecution]
  · subst hc htr
    rcases hrun : R.delForkOfOwner m.value w.ctx with ⟨_ | _ | _, c1⟩ <;>
    simp [callsOf, processRequestBlocking, ht, hd, hrun, Call.isRegistry, Call.isExecution]
  · subst hc htr
    rcases hrun : R.acceptForkRequest m.value m.forkDst w.ctx with ⟨_ | _ | _, c1⟩ <;>
    simp [callsOf, processRequestBlocking, ht, hd, hrun, Call.isRegistry, Call.isExecution]
  · subst hc htr
    rcases hrun : R.finishForkRequest m.value w.ctx with ⟨_ | _ | _, c1⟩ <;>
    simp [callsOf, processRequestBlocking, ht, hd, hrun, Call.isRegistry, Call.isExecution]

/-- Witness of C7: the example `RREF_FORK_NOTIFY` for the id `(0, 1)` and destination
worker 2. -/
theorem C7_fork_control_single_transition_witness :
    callsOf Example.env Example.registry
        (⟨[0, 1, 2], [], MessageType.RREF_FORK_NOTIFY, 7⟩ : Message Unit) Example.fresh =
      [Call.acceptForkRequest (Example.Value.id 0 1) 2] ∧
    (Call.acceptForkRequest (Example.Value.id 0 1) 2 : Call Example.Value Nat).isRegistry =
      true ∧
    (∀ c ∈ callsOf Example.env Example.registry
        (⟨[0, 1, 2], [], MessageType.RREF_FORK_NOTIFY, 7⟩ : Message Unit) Example.fresh,
      c.isExecution = false) ∧
    (processRequestBlocking Example.env Example.registry
        (⟨[0, 1, 2], [], MessageType.RREF_FORK_NOTIFY, 7⟩ : Message Unit)
        Example.fresh).2.ctx =
      (Example.registry.acceptForkRequest (Example.Value.id 0 1) 2 Example.fresh.ctx).2 ∧
    (processRequestBlocking Example.env Example.registry
        (⟨[0, 1, 2], [], MessageType.RREF_FORK_NOTIFY, 7⟩ : Message Unit) Example.fresh).1 =
      (match (Example.registry.acceptForkRequest (Example.Value.id 0 1) 2
          Example.fresh.ctx).1 with
        | Outcome.returned _ => Outcome.returned Message.empty
        | Outcome.threw e => Outcome.threw e
        | Outcome.blocked => Outcome.blocked) :=
  C7_fork_control_single_transition Example.env Example.registry
    ⟨[0, 1, 2], [], MessageType.RREF_FORK_NOTIFY, 7⟩ Example.fresh
    (Call.acceptForkRequest (Example.Value.id 0 1) 2)
    (Example.registry.acceptForkRequest (Example.Value.id 0 1) 2)
    (Or.inr (Or.inr (Or.inl ⟨rfl, ⟨⟨Example.Value.id 0 1, 2⟩, rfl, rfl, rfl⟩⟩)))

/-- C8: a message whose type is not one of the ten handled request tags makes
`processRequestBlocking` throw the error for that unsupported type; no registry call and
no execution is made, and the state afterwards is the state before. The response tags
`SCRIPT_RET`, `PYTHON_RET` and `EXCEPTION` are among the unhandled ones. -/
theorem C8_unsupported_type_fails_without_effect (E : Env IValue PyObject Tensor)
    (R : RRefContext Ctx IValue PyObject) (request : Message Tensor)
    (w : World Ctx IValue PyObject) (h : request.type.handled = false) :
    processRequestBlocking E R request w =
        (Outcome.threw (E.unsupportedType request.type), w) ∧
    callsOf E R request w = [] ∧
    (processRequestBlocking E R request w).2.ctx = w.ctx ∧
    MessageType.SCRIPT_RET.handled = false ∧
    MessageType.PYTHON_RET.handled = false ∧
    MessageType.EXCEPTION.handled = false := by
  have hrun : processRequestBlocking E R request w =
      (Outcome.threw (E.unsupportedType request.type), w) := by
    obtain ⟨payload, tensors, type, id⟩ := request
    cases type <;> simp [Message.type, MessageType.handled] at h <;>
      simp [processRequestBlocking, Message.type]
  exact ⟨hrun, by simp [callsOf, hrun], by rw [hrun], rfl, rfl, rfl⟩

/-- Witness of C8: an `EXCEPTION` message handed to the dispatcher of the example. -/
theorem C8_unsupported_type_fails_without_effect_witness :
    processRequestBlocking Example.env Example.registry
        (⟨[0, 1], [], MessageType.EXCEPTION, 7⟩ : Message Unit) Example.fresh =
      (Outcome.threw (Example.env.unsupportedType
        (⟨[0, 1], [], MessageType.EXCEPTION, 7⟩ : Message Unit).type), Example.fresh) ∧
    callsOf Example.env Example.registry
        (⟨[0, 1], [], MessageType.EXCEPTION, 7⟩ : Message Unit) Example.fresh = [] ∧
    (processRequestBlocking Example.env Example.registry
        (⟨[0, 1], [], MessageType.EXCEPTION, 7⟩ : Message Unit) Example.fresh).2.ctx =
      Example.fresh.ctx ∧
    MessageType.SCRIPT_RET.handled = false ∧
    MessageType.PYTHON_RET.handled = false ∧
    MessageType.EXCEPTION.handled = false :=
  C8_unsupported_type_fails_without_effect Example.env Example.registry
    ⟨[0, 1], [], MessageType.EXCEPTION, 7⟩ Example.fresh rfl

/-- C2 fails on the code: outside `SCRIPT_CALL` and `PYTHON_CALL` there is no `try` block.
In the example, a `REMOTE_CALL` whose operator throws `boom`, an `RREF_FETCH` whose
payload does not decode, and a second `REMOTE_CALL` for an owner whose value is already
set (`setValue` fails with `AlreadySet`) all make `processRequestBlocking` throw instead
of returning an `EXCEPTION` message. -/
theorem C2_failure_escapes_dispatcher :
    (processRequestBlocking Example.env Example.registry
      (⟨[0, 1, 0, 1, 1, 2, 3], [], MessageType.REMOTE_CALL, 7⟩ : Message Unit)
      Example.fresh).1 = Outcome.threw Example.boom ∧
    (processRequestBlocking Example.env Example.registry
      (⟨[], [], MessageType.RREF_FETCH, 8⟩ : Message Unit)
      Example.fresh).1 = Outcome.threw Example.bad ∧
    (processRequestBlocking Example.env Example.registry
      (⟨[0, 1, 0, 1, 0, 2, 3], [], MessageType.REMOTE_CALL, 9⟩ : Message Unit)
      (processRequestBlocking Example.env Example.registry
        (⟨[0, 1, 0, 1, 0, 2, 3], [], MessageType.REMOTE_CALL, 7⟩ : Message Unit)
        Example.fresh).2).1 = Outcome.threw alreadySet := by
  decide

end Control

end torch.distributed.rpc
